import Mathlib

/-!
Verification of the carbon-style code-image generator (`src/backend/server.js`).

The development shallowly embeds the server's pure core: the HTML escaping
function `escapeHTML`, the template builder `generateHTMLTemplate`, the cache
key construction of the `POST /api/generate` handler, the cache accessors
`getFromCache` / `setToCache`, input validation, and the request handlers for
`POST /api/generate` and `POST /api/generate/fallback`.

Conventions of the embedding:
* JavaScript strings are modeled as Lean `String` / `List Char`.  A JS string
  argument that may also be `null`/`undefined` is modeled as `Option String`
  (`none` standing for both nullish values).
* Code that can throw is modeled with `Option`/`Except`; `try`/`catch` is
  modeled by matching on the `Except`.
* Effects of the headless browser (page open, content load, measurement,
  screenshot, page close) are modeled by an environment record stating the
  outcome of each step, and the handler is a pure function of that
  environment; the page lifecycle is recorded in an event trace.
-/

set_option linter.unusedVariables false

/-! ## The HTML escaper (server.js lines 446-457)

`escapeHTML(str)` returns `''` for falsy input and otherwise applies, in
order, the global replacements `& → &amp;`, `< → &lt;`, `> → &gt;`,
`" → &quot;`, `' → &#039;`, `\n → <br>`, `\t → &nbsp;&nbsp;&nbsp;&nbsp;`,
`␣ → &nbsp;`.  No replacement output contains a pattern of a later
replacement applied to it, and no replacement output contains a pattern of an
earlier already-performed one being reintroduced, so the chain of global
replaces equals a single character-by-character expansion `escChar`. -/

/-- The per-character expansion realised by the replacement chain of
`escapeHTML` (server.js lines 448-456). -/
def escChar (c : Char) : List Char :=
  if c = '&' then ['&', 'a', 'm', 'p', ';']
  else if c = '<' then ['&', 'l', 't', ';']
  else if c = '>' then ['&', 'g', 't', ';']
  else if c = '"' then ['&', 'q', 'u', 'o', 't', ';']
  else if c = Char.ofNat 39 then ['&', '#', '0', '3', '9', ';']
  else if c = '\n' then ['<', 'b', 'r', '>']
  else if c = '\t' then
    ['&', 'n', 'b', 's', 'p', ';', '&', 'n', 'b', 's', 'p', ';',
     '&', 'n', 'b', 's', 'p', ';', '&', 'n', 'b', 's', 'p', ';']
  else if c = ' ' then ['&', 'n', 'b', 's', 'p', ';']
  else [c]

/-- Character-list form of the escaping performed by `escapeHTML` on a
non-empty string. -/
def escHTMLChars (l : List Char) : List Char :=
  l.flatMap escChar

/-- `escapeHTML` (server.js lines 446-457).  The input is `Option String`:
`none` models a `null`/`undefined` argument, which is falsy, as is the empty
string (`if (!str) return ''`). -/
def escapeHTML (str : Option String) : String :=
  match str with
  | none => ""
  | some s => if s = "" then "" else ⟨escHTMLChars s.data⟩

/-- Inverse scanner for the escape: maps the entities `&amp;`, `&lt;`,
`&gt;`, `&quot;`, `&#039;`, `&nbsp;` and the line break `<br>` back to the
character they encode, and leaves every other character alone.  This is the
"extract the rendered text content" direction of the spec's round trip
(reading `&nbsp;` as the space it stands for).  The first argument is fuel
(any amount at least the list length behaves identically). -/
def unescGo : Nat → List Char → List Char
  | 0, _ => []
  | _, [] => []
  | fuel+1, c :: r =>
    if ['&', 'a', 'm', 'p', ';'].isPrefixOf (c :: r) then '&' :: unescGo fuel ((c :: r).drop 5)
    else if ['&', 'l', 't', ';'].isPrefixOf (c :: r) then '<' :: unescGo fuel ((c :: r).drop 4)
    else if ['&', 'g', 't', ';'].isPrefixOf (c :: r) then '>' :: unescGo fuel ((c :: r).drop 4)
    else if ['&', 'q', 'u', 'o', 't', ';'].isPrefixOf (c :: r) then
      '"' :: unescGo fuel ((c :: r).drop 6)
    else if ['&', '#', '0', '3', '9', ';'].isPrefixOf (c :: r) then
      Char.ofNat 39 :: unescGo fuel ((c :: r).drop 6)
    else if ['&', 'n', 'b', 's', 'p', ';'].isPrefixOf (c :: r) then
      ' ' :: unescGo fuel ((c :: r).drop 6)
    else if ['<', 'b', 'r', '>'].isPrefixOf (c :: r) then '\n' :: unescGo fuel ((c :: r).drop 4)
    else c :: unescGo fuel r

/-- Entity-decoding of a character list. -/
def unescChars (l : List Char) : List Char := unescGo l.length l

/-- String-level inverse of `escapeHTML`. -/
def unescapeHTML (s : String) : String :=
  ⟨unescChars s.data⟩

/-- Scanner checking that a string is made only of the entities produced by
`escapeHTML`, the `<br>` line break, and characters that are none of `<`,
`>`, `&`: i.e. that no raw `<`, `>` or `&` survives outside an entity or a
generated line break. -/
def noRawGo : Nat → List Char → Bool
  | 0, _ => true
  | _, [] => true
  | fuel+1, c :: r =>
    if ['&', 'a', 'm', 'p', ';'].isPrefixOf (c :: r) then noRawGo fuel ((c :: r).drop 5)
    else if ['&', 'l', 't', ';'].isPrefixOf (c :: r) then noRawGo fuel ((c :: r).drop 4)
    else if ['&', 'g', 't', ';'].isPrefixOf (c :: r) then noRawGo fuel ((c :: r).drop 4)
    else if ['&', 'q', 'u', 'o', 't', ';'].isPrefixOf (c :: r) then noRawGo fuel ((c :: r).drop 6)
    else if ['&', '#', '0', '3', '9', ';'].isPrefixOf (c :: r) then noRawGo fuel ((c :: r).drop 6)
    else if ['&', 'n', 'b', 's', 'p', ';'].isPrefixOf (c :: r) then noRawGo fuel ((c :: r).drop 6)
    else if ['<', 'b', 'r', '>'].isPrefixOf (c :: r) then noRawGo fuel ((c :: r).drop 4)
    else if c = '&' ∨ c = '<' ∨ c = '>' then false
    else noRawGo fuel r

/-- No raw `<`, `>`, `&` outside produced entities / line breaks. -/
def noRawSpecials (l : List Char) : Bool := noRawGo l.length l

/-! ## Decimal printing of numbers

`JSON.stringify` prints a non-negative integer in decimal; this is the
number serialization used by the cache-key fingerprint for numeric option
values.  `natReprGo` is fuel-based so that it reduces in the kernel. -/

/-- Decimal digits of `n`, most significant first (`fuel`-driven; any fuel
above `n` gives the full representation). -/
def natReprGo : Nat → Nat → List Char
  | 0, _ => []
  | fuel+1, n =>
    if n < 10 then [Nat.digitChar n]
    else natReprGo fuel (n / 10) ++ [Nat.digitChar (n % 10)]

/-- Decimal representation of a natural number, as produced by
`JSON.stringify` / JS number-to-string conversion for integers. -/
def natRepr (n : Nat) : List Char := natReprGo (n + 1) n

/-- Numeric value of a digit character. -/
def digitVal (c : Char) : Nat := c.toNat - 48

/-- Value of a most-significant-first digit list. -/
def digitsVal (l : List Char) : Nat := l.foldl (fun a c => a * 10 + digitVal c) 0

/-! ## Base64 (Node `Buffer.toString('base64')`)

The handler's cache key (server.js line 540) starts with the base64 encoding
of the code's bytes.  Bytes are modeled as `Nat` below 256 (a JS string's
UTF-8 byte sequence). -/

/-- The base64 alphabet. -/
def b64Table : List Char :=
  "ABCDEFGHIJKLMNOPQRSTUVWXYZabcdefghijklmnopqrstuvwxyz0123456789+/".data

/-- Character for a six-bit group. -/
def b64c (n : Nat) : Char := b64Table.getD n 'A'

/-- Index of a base64 character in the alphabet. -/
def b64idx (c : Char) : Nat := b64Table.indexOf c

/-- Standard padded base64 of a byte list, as produced by
`Buffer.from(code).toString('base64')`. -/
def base64Encode : List Nat → List Char
  | [] => []
  | [a] => [b64c (a / 4), b64c (a % 4 * 16), '=', '=']
  | [a, b] => [b64c (a / 4), b64c (a % 4 * 16 + b / 16), b64c (b % 16 * 4), '=']
  | a :: b :: c :: rest =>
    b64c (a / 4) :: b64c (a % 4 * 16 + b / 16) :: b64c (b % 16 * 4 + c / 64) ::
      b64c (c % 64) :: base64Encode rest

/-- Inverse of `base64Encode` (on well-formed input). -/
def base64Decode : List Char → Option (List Nat)
  | [] => some []
  | w :: x :: y :: z :: rest =>
    if y = '=' then
      if z = '=' ∧ rest = [] then some [b64idx w * 4 + b64idx x / 16] else none
    else if z = '=' then
      if rest = [] then
        some [b64idx w * 4 + b64idx x / 16, b64idx x % 16 * 16 + b64idx y / 4]
      else none
    else
      (base64Decode rest).map
        (fun r => (b64idx w * 4 + b64idx x / 16) :: (b64idx x % 16 * 16 + b64idx y / 4) ::
          (b64idx y % 4 * 64 + b64idx z) :: r)
  | _ => none

/-! ## `JSON.stringify` of the request's options object

The cache key (server.js line 540) embeds `JSON.stringify(options)`.  The
documented `RenderOptions` fields are all JSON primitives (strings, numbers,
booleans), so an options object is modeled as an association list
`List (String × Prim)` in its JS insertion order (`JSON.stringify` serializes
object keys in that order).  Numbers are modeled as the naturals (the only
numeric option fields are non-negative integers such as `tabSize`). -/

inductive Prim where
  | pstr (s : String)
  | pnum (n : Nat)
  | pbool (b : Bool)
  | pnull
  deriving DecidableEq

/-- Value of a lowercase hexadecimal digit. -/
def hexVal (c : Char) : Nat := if c.isDigit then c.toNat - 48 else c.toNat - 87

/-- The character escape of `JSON.stringify` for string values: quote and
backslash get a backslash escape, the named control characters use their
short forms, the remaining control characters use `\u00XX`, and everything
else is copied. -/
def escJsonChar (c : Char) : List Char :=
  if c = '"' then ['\\', '"']
  else if c = '\\' then ['\\', '\\']
  else if c = Char.ofNat 8 then ['\\', 'b']
  else if c = '\t' then ['\\', 't']
  else if c = '\n' then ['\\', 'n']
  else if c = Char.ofNat 12 then ['\\', 'f']
  else if c = Char.ofNat 13 then ['\\', 'r']
  else if c.toNat < 32 then
    ['\\', 'u', '0', '0', Nat.digitChar (c.toNat / 16), Nat.digitChar (c.toNat % 16)]
  else [c]

/-- JSON escape of a character list. -/
def jstrEsc (s : List Char) : List Char := s.flatMap escJsonChar

/-- A JSON string literal: quoted escaped text. -/
def quoteStr (s : List Char) : List Char := '"' :: (jstrEsc s ++ ['"'])

/-- `JSON.stringify` of a primitive value. -/
def stringifyPrim : Prim → List Char
  | .pstr s => quoteStr s.data
  | .pnum n => natRepr n
  | .pbool true => ['t', 'r', 'u', 'e']
  | .pbool false => ['f', 'a', 'l', 's', 'e']
  | .pnull => ['n', 'u', 'l', 'l']

/-- `"key":value` member text. -/
def encPair (p : String × Prim) : List Char :=
  quoteStr p.1.data ++ ':' :: stringifyPrim p.2

/-- Comma-separated member list. -/
def pairsEnc : List (String × Prim) → List Char
  | [] => []
  | [p] => encPair p
  | p :: ps => encPair p ++ ',' :: pairsEnc ps

/-- `JSON.stringify` of an options object in key insertion order. -/
def stringifyOpts (l : List (String × Prim)) : List Char :=
  Char.ofNat 123 :: (pairsEnc l ++ [Char.ofNat 125])

/-- Decoder of one backslash escape (the part after the backslash): returns
the decoded character and the remainder. -/
def unescEsc1 : List Char → Option (Char × List Char)
  | [] => none
  | d :: r2 =>
    if d = '"' then some ('"', r2)
    else if d = '\\' then some ('\\', r2)
    else if d = 'b' then some (Char.ofNat 8, r2)
    else if d = 't' then some ('\t', r2)
    else if d = 'n' then some ('\n', r2)
    else if d = 'f' then some (Char.ofNat 12, r2)
    else if d = 'r' then some (Char.ofNat 13, r2)
    else if d = 'u' then
      match r2 with
      | h0 :: h1 :: h2 :: h3 :: r3 =>
        if h0 = '0' then
          if h1 = '0' then some (Char.ofNat (hexVal h2 * 16 + hexVal h3), r3)
          else none
        else none
      | _ => none
    else none

/-- Parser of a JSON string body up to its closing quote (fuel-driven).
Returns the decoded text and the remainder after the closing quote. -/
def parseJStr : Nat → List Char → Option (List Char × List Char)
  | 0, _ => none
  | _, [] => none
  | fuel+1, c :: r =>
    if c = '"' then some ([], r)
    else if c = '\\' then
      match unescEsc1 r with
      | none => none
      | some p => (parseJStr fuel p.2).map (fun q => (p.1 :: q.1, q.2))
    else (parseJStr fuel r).map (fun p => (c :: p.1, p.2))

/-- Parser of a serialized primitive. -/
def parsePrim (fuel : Nat) : List Char → Option (Prim × List Char)
  | [] => none
  | c :: r =>
    if c = '"' then (parseJStr fuel r).map (fun p => (Prim.pstr ⟨p.1⟩, p.2))
    else if c.isDigit then
      some (Prim.pnum (digitsVal ((c :: r).takeWhile Char.isDigit)),
        (c :: r).dropWhile Char.isDigit)
    else if ['t', 'r', 'u', 'e'].isPrefixOf (c :: r) then some (Prim.pbool true, (c :: r).drop 4)
    else if ['f', 'a', 'l', 's', 'e'].isPrefixOf (c :: r) then
      some (Prim.pbool false, (c :: r).drop 5)
    else if ['n', 'u', 'l', 'l'].isPrefixOf (c :: r) then some (Prim.pnull, (c :: r).drop 4)
    else none

/-- Parser of one `"key":value` member. -/
def parsePair (fuel : Nat) : List Char → Option ((String × Prim) × List Char)
  | [] => none
  | c :: r =>
    if c = '"' then
      (parseJStr fuel r).bind (fun kp =>
        match kp.2 with
        | [] => none
        | c2 :: r2 => if c2 = ':' then (parsePrim fuel r2).map (fun vp => ((⟨kp.1⟩, vp.1), vp.2))
          else none)
    else none

/-- Tail of a member list after its first member: empty, or a comma and the
remaining members. -/
def pairsTail (ps : List (String × Prim)) : List Char :=
  match ps with
  | [] => []
  | _ :: _ => ',' :: pairsEnc ps

/-! ## The cache key of `POST /api/generate` (server.js line 540)

`cacheKey` is the fingerprint used for the result cache:
`` `carbon:${Buffer.from(code).toString('base64')}:${JSON.stringify(options)}` ``.
The code string enters as its byte sequence (`Buffer.from` produces the
UTF-8 bytes of the JS string); the options object enters as its
`JSON.stringify` text, which serializes keys in insertion order. -/

/-- The cache key (server.js line 540): `carbon:` + base64 of the code bytes
+ `:` + JSON of the options object. -/
def cacheKey (codeBytes : List Nat) (options : List (String × Prim)) : List Char :=
  "carbon:".data ++ (base64Encode codeBytes ++ ':' :: stringifyOpts options)

/-! ## The template builder `generateHTMLTemplate` (server.js lines 160-444)

The builder destructures its options object with the documented defaults and
splices the values into one HTML document.  (The template literal of the
source contains one raw backtick, inside the regex character class on line
392; JS reads an unescaped backtick as the end of the template literal,
which makes the file as committed a syntax error.  The evident intent is a
literal backtick in the generated script, and the embedding reads it as
template text.)  `RenderOptions` models the
options object under its documented field types; an absent field is `none`
(JS `undefined`), which triggers the destructuring default.  The palette
fields `class` and `variable` of the source are named `classColor` and
`variableColor` because both words are Lean keywords. -/

structure ThemePalette where
  background : String
  text : String
  comment : String
  keyword : String
  string : String
  number : String
  function : String
  classColor : String
  variableColor : String
  operator : String
  deriving DecidableEq

/-- `themes.dark` (server.js lines 175-186). -/
def darkTheme : ThemePalette :=
  { background := "#262424", text := "#f8f8f2", comment := "#6272a4", keyword := "#ff79c6",
    string := "#f1fa8c", number := "#bd93f9", function := "#50fa7b", classColor := "#8be9fd",
    variableColor := "#ffb86c", operator := "#ff79c6" }

/-- `themes.light` (server.js lines 187-198). -/
def lightTheme : ThemePalette :=
  { background := "#ffffff", text := "#383a42", comment := "#a0a1a7", keyword := "#a626a4",
    string := "#50a14f", number := "#986801", function := "#4078f2", classColor := "#c18401",
    variableColor := "#e45649", operator := "#a626a4" }

/-- `themes.solarized` (server.js lines 199-210). -/
def solarizedTheme : ThemePalette :=
  { background := "#002b36", text := "#839496", comment := "#586e75", keyword := "#859900",
    string := "#2aa198", number := "#d33682", function := "#b58900", classColor := "#268bd2",
    variableColor := "#cb4b16", operator := "#859900" }

/-- The property names a plain object literal inherits from
`Object.prototype` in Node.  `themes[name]` for each of them resolves
through the prototype chain to a truthy member: a built-in function for
most, and `Object.prototype` itself for `__proto__`. -/
def protoProps : List String :=
  ["constructor", "hasOwnProperty", "isPrototypeOf", "propertyIsEnumerable",
   "toLocaleString", "toString", "valueOf", "__defineGetter__",
   "__defineSetter__", "__lookupGetter__", "__lookupSetter__", "__proto__"]

/-- A member the bracket lookup `themes[theme]` can produce: one of the
object literal's own palettes, or a truthy member inherited from
`Object.prototype` (`toString`, `constructor`, ...). -/
inductive ThemeMember where
  | palette (p : ThemePalette)
  | inherited
  deriving DecidableEq

/-- `themes[theme]` (server.js line 213): the own properties of the object
literal (lines 174-211), then the prototype chain — a name inherited from
`Object.prototype` yields a truthy inherited member — and `undefined`
(`none`) for every other name. -/
def themesLookup (theme : String) : Option ThemeMember :=
  if theme = "dark" then some (.palette darkTheme)
  else if theme = "light" then some (.palette lightTheme)
  else if theme = "solarized" then some (.palette solarizedTheme)
  else if theme ∈ protoProps then some .inherited
  else none

/-- Every palette field read from a truthy inherited member (a function, or
`Object.prototype`) is `undefined`; a template literal interpolates each
such read as the text `undefined`. -/
def undefinedPalette : ThemePalette :=
  { background := "undefined", text := "undefined", comment := "undefined",
    keyword := "undefined", string := "undefined", number := "undefined",
    function := "undefined", classColor := "undefined",
    variableColor := "undefined", operator := "undefined" }

/-- `themes[theme] || themes.dark` (server.js line 213), combined with the
template's palette-field reads on the result: an absent (`undefined`)
member falls back to the dark palette; a truthy inherited member is kept by
`||`, and every palette field read from it is `undefined`. -/
def themeColorsOf (theme : String) : ThemePalette :=
  match themesLookup theme with
  | some (.palette p) => p
  | some .inherited => undefinedPalette
  | none => darkTheme

/-- The options object of the request, under its documented field types;
`none` is an absent (`undefined`) field. -/
structure RenderOptions where
  theme : Option String := none
  backgroundColor : Option String := none
  fontFamily : Option String := none
  fontSize : Option String := none
  language : Option String := none
  showLineNumbers : Option Bool := none
  showWindowControls : Option Bool := none
  padding : Option String := none
  lineHeight : Option String := none
  tabSize : Option Nat := none
  deriving DecidableEq

/-- JS boolean-to-string interpolation. -/
def jsBool (b : Bool) : String := if b then "true" else "false"

/-- Decimal string of a natural (JS number interpolation). -/
def natStr (n : Nat) : String := ⟨natRepr n⟩

/-- `fontFamily.replace(/ /g, '+')` (server.js line 223). -/
def replaceSpacesWithPlus (s : String) : String :=
  ⟨s.data.map (fun c => if c = ' ' then '+' else c)⟩

/-- `fontFamily.includes(' ')` (server.js line 214). -/
def containsSpace (s : String) : Bool := s.data.contains ' '

/-- `language.toUpperCase()` (server.js line 365); ASCII case mapping. -/
def jsToUpperCase (s : String) : String := ⟨s.data.map Char.toUpper⟩

/-- `parseInt` on a CSS length such as `14px`: value of the leading digit
run, `none` for NaN. -/
def jsParseInt (s : String) : Option Nat :=
  let d := s.data.takeWhile Char.isDigit
  if d.isEmpty then none else some (digitsVal d)

/-- `parseFloat` on a simple decimal such as `1.6`: numerator and power of
ten of the denominator, `none` for NaN (signs/exponents not modeled; the
validated option grammar has none). -/
def jsParseFloat (s : String) : Option (Nat × Nat) :=
  let d := s.data.takeWhile Char.isDigit
  let rest := s.data.dropWhile Char.isDigit
  if d.isEmpty then none
  else
    match rest with
    | c :: r =>
      if c = '.' then
        let fr := r.takeWhile Char.isDigit
        some (digitsVal d * 10 ^ fr.length + digitsVal fr, fr.length)
      else some (digitsVal d, 0)
    | [] => some (digitsVal d, 0)

def stripTrailingZeros (l : List Char) : List Char :=
  (l.reverse.dropWhile (fun c => c = '0')).reverse

/-- Shortest decimal of `num / 10^k`. -/
def decimalRepr (num k : Nat) : List Char :=
  let den := 10 ^ k
  let ip := natRepr (num / den)
  let frac := num % den
  if frac = 0 then ip
  else ip ++ '.' :: stripTrailingZeros
    (List.replicate (k - (natRepr frac).length) '0' ++ natRepr frac)

/-- `${parseInt(fontSize) * parseFloat(lineHeight)}` (server.js line 311).
JS multiplies IEEE-754 doubles; the model multiplies exactly, so `14 * 1.6`
prints `22.4` where JS prints the float artifact `22.400000000000002`.  No
claim depends on this substring. -/
def lineMinHeight (fontSize lineHeight : String) : String :=
  match jsParseInt fontSize, jsParseFloat lineHeight with
  | some a, some p => ⟨decimalRepr (a * p.1) p.2⟩
  | _, _ => "NaN"

/-- Text of the generated document before the escaped code (everything of
the template literal of server.js lines 216-373 up to, but excluding, the
literal `<pre><code>` that opens the code block). -/
def templateHeadBody (options : RenderOptions) : String :=
  let theme := options.theme.getD "dark"
  let backgroundColor := options.backgroundColor.getD "#262424"
  let fontFamily := options.fontFamily.getD "Fira Code"
  let fontSize := options.fontSize.getD "14px"
  let language := options.language.getD "auto"
  let showLineNumbers := options.showLineNumbers.getD true
  let showWindowControls := options.showWindowControls.getD true
  let padding := options.padding.getD "40px"
  let lineHeight := options.lineHeight.getD "1.6"
  let tabSize := options.tabSize.getD 2
  let themeColors := themeColorsOf theme
  let fontFamilyCSS :=
    if containsSpace fontFamily then "\x27" ++ fontFamily ++ "\x27" else fontFamily
  "\n" ++
  "<!DOCTYPE html>\n" ++
  "<html lang=\"en\">\n" ++
  "<head>\n" ++
  "    <meta charset=\"UTF-8\">\n" ++
  "    <meta name=\"viewport\" content=\"width=device-width, initial-scale=1.0\">\n" ++
  "    <title>Carbon Code</title>\n" ++
  "    <link href=\"https://fonts.googleapis.com/css2?family=" ++
  (replaceSpacesWithPlus fontFamily) ++
  "&display=swap\" rel=\"stylesheet\">\n" ++
  "    <style>\n" ++
  "        * \x7b\n" ++
  "            margin: 0;\n" ++
  "            padding: 0;\n" ++
  "            box-sizing: border-box;\n" ++
  "        \x7d\n" ++
  "        \n" ++
  "        body \x7b\n" ++
  "            background: " ++
  backgroundColor ++
  ";\n" ++
  "            font-family: " ++
  fontFamilyCSS ++
  ", monospace;\n" ++
  "            font-size: " ++
  fontSize ++
  ";\n" ++
  "            line-height: " ++
  lineHeight ++
  ";\n" ++
  "            color: " ++
  themeColors.text ++
  ";\n" ++
  "            padding: " ++
  padding ++
  ";\n" ++
  "            min-height: 100vh;\n" ++
  "            display: flex;\n" ++
  "            align-items: center;\n" ++
  "            justify-content: center;\n" ++
  "        \x7d\n" ++
  "        \n" ++
  "        .carbon-container \x7b\n" ++
  "            width: 100%;\n" ++
  "            max-width: 900px;\n" ++
  "            background: " ++
  (if theme = "dark" then "rgba(0, 0, 0, 0.3)" else "rgba(0, 0, 0, 0.05)") ++
  ";\n" ++
  "            border-radius: 12px;\n" ++
  "            overflow: hidden;\n" ++
  "            box-shadow: 0 20px 60px rgba(0, 0, 0, 0.3);\n" ++
  "            border: 1px solid " ++
  (if theme = "dark" then "rgba(255, 255, 255, 0.1)" else "rgba(0, 0, 0, 0.1)") ++
  ";\n" ++
  "        \x7d\n" ++
  "        \n" ++
  "        " ++
  (if showWindowControls then
    (
      "\n" ++
      "        .window-header \x7b\n" ++
      "            background: " ++
      (if theme = "dark" then "rgba(0, 0, 0, 0.4)" else "rgba(0, 0, 0, 0.1)") ++
      ";\n" ++
      "            padding: 16px 24px;\n" ++
      "            display: flex;\n" ++
      "            align-items: center;\n" ++
      "            justify-content: space-between;\n" ++
      "            border-bottom: 1px solid " ++
      (if theme = "dark" then "rgba(255, 255, 255, 0.1)" else "rgba(0, 0, 0, 0.1)") ++
      ";\n" ++
      "        \x7d\n" ++
      "        \n" ++
      "        .window-controls \x7b\n" ++
      "            display: flex;\n" ++
      "            gap: 10px;\n" ++
      "        \x7d\n" ++
      "        \n" ++
      "        .window-dot \x7b\n" ++
      "            width: 14px;\n" ++
      "            height: 14px;\n" ++
      "            border-radius: 50%;\n" ++
      "            cursor: pointer;\n" ++
      "            transition: all 0.2s ease;\n" ++
      "        \x7d\n" ++
      "        \n" ++
      "        .window-dot:hover \x7b\n" ++
      "            transform: scale(1.1);\n" ++
      "        \x7d\n" ++
      "        \n" ++
      "        .dot-close \x7b background: #ff5f56; \x7d\n" ++
      "        .dot-minimize \x7b background: #ffbd2e; \x7d\n" ++
      "        .dot-maximize \x7b background: #27ca3f; \x7d\n" ++
      "        \n" ++
      "        .window-title \x7b\n" ++
      "            font-size: 0.9em;\n" ++
      "            color: " ++
      themeColors.comment ++
      ";\n" ++
      "            font-weight: 500;\n" ++
      "        \x7d\n" ++
      "        "
    )
  else "") ++
  "\n" ++
  "        \n" ++
  "        .code-wrapper \x7b\n" ++
  "            padding: 32px;\n" ++
  "            overflow: auto;\n" ++
  "        \x7d\n" ++
  "        \n" ++
  "        pre \x7b\n" ++
  "            margin: 0;\n" ++
  "            white-space: pre-wrap;\n" ++
  "            word-wrap: break-word;\n" ++
  "            tab-size: " ++
  (natStr tabSize) ++
  ";\n" ++
  "        \x7d\n" ++
  "        \n" ++
  "        code \x7b\n" ++
  "            font-family: inherit;\n" ++
  "            display: block;\n" ++
  "        \x7d\n" ++
  "        \n" ++
  "        .line \x7b\n" ++
  "            display: flex;\n" ++
  "            min-height: " ++
  (lineMinHeight fontSize lineHeight) ++
  "px;\n" ++
  "        \x7d\n" ++
  "        \n" ++
  "        " ++
  (if showLineNumbers then
    (
      "\n" ++
      "        .line-number \x7b\n" ++
      "            color: " ++
      themeColors.comment ++
      ";\n" ++
      "            user-select: none;\n" ++
      "            text-align: right;\n" ++
      "            min-width: 40px;\n" ++
      "            padding-right: 16px;\n" ++
      "            border-right: 1px solid " ++
      (if theme = "dark" then "rgba(255, 255, 255, 0.1)" else "rgba(0, 0, 0, 0.1)") ++
      ";\n" ++
      "            margin-right: 16px;\n" ++
      "        \x7d\n" ++
      "        "
    )
  else "") ++
  "\n" ++
  "        \n" ++
  "        .token.comment \x7b color: " ++
  themeColors.comment ++
  "; font-style: italic; \x7d\n" ++
  "        .token.keyword \x7b color: " ++
  themeColors.keyword ++
  "; font-weight: 600; \x7d\n" ++
  "        .token.string \x7b color: " ++
  themeColors.string ++
  "; \x7d\n" ++
  "        .token.number \x7b color: " ++
  themeColors.number ++
  "; \x7d\n" ++
  "        .token.function \x7b color: " ++
  themeColors.function ++
  "; \x7d\n" ++
  "        .token.class \x7b color: " ++
  themeColors.classColor ++
  "; \x7d\n" ++
  "        .token.variable \x7b color: " ++
  themeColors.variableColor ++
  "; \x7d\n" ++
  "        .token.operator \x7b color: " ++
  themeColors.operator ++
  "; \x7d\n" ++
  "        .token.punctuation \x7b color: " ++
  themeColors.text ++
  "; opacity: 0.8; \x7d\n" ++
  "        \n" ++
  "        .grid-bg \x7b\n" ++
  "            position: absolute;\n" ++
  "            top: 0;\n" ++
  "            left: 0;\n" ++
  "            right: 0;\n" ++
  "            bottom: 0;\n" ++
  "            background-image: \n" ++
  "                linear-gradient(rgba(255, 255, 255, 0.03) 1px, transparent 1px),\n" ++
  "                linear-gradient(90deg, rgba(255, 255, 255, 0.03) 1px, transparent 1px);\n" ++
  "            background-size: 30px 30px;\n" ++
  "            pointer-events: none;\n" ++
  "            z-index: 0;\n" ++
  "        \x7d\n" ++
  "        \n" ++
  "        .content \x7b\n" ++
  "            position: relative;\n" ++
  "            z-index: 1;\n" ++
  "        \x7d\n" ++
  "    </style>\n" ++
  "</head>\n" ++
  "<body>\n" ++
  "    <div class=\"carbon-container\">\n" ++
  "        " ++
  (if showWindowControls then
    (
      "\n" ++
      "        <div class=\"window-header\">\n" ++
      "            <div class=\"window-controls\">\n" ++
      "                <div class=\"window-dot dot-close\" title=\"Close\"></div>\n" ++
      "                <div class=\"window-dot dot-minimize\" title=\"Minimize\"></div>\n" ++
      "                <div class=\"window-dot dot-maximize\" title=\"Maximize\"></div>\n" ++
      "            </div>\n" ++
      "            <div class=\"window-title\">" ++
      (jsToUpperCase language) ++
      " \u2022 Carbon Generator</div>\n" ++
      "            <div style=\"width: 60px;\"></div>\n" ++
      "        </div>\n" ++
      "        "
    )
  else "") ++
  "\n" ++
  "        \n" ++
  "        <div class=\"code-wrapper\">\n" ++
  "            <div class=\"grid-bg\"></div>\n" ++
  "            <div class=\"content\">\n" ++
  "                "

/-- Template text up to and including the `<pre><code>` opening of the code
block. -/
def templateHead (options : RenderOptions) : String :=
  templateHeadBody options ++ "<pre><code>"

/-- Text of the generated document after the escaped code (server.js lines
373-443), excluding the leading `</code></pre>`. -/
def templateTailBody (options : RenderOptions) : String :=
  let theme := options.theme.getD "dark"
  let backgroundColor := options.backgroundColor.getD "#262424"
  let fontFamily := options.fontFamily.getD "Fira Code"
  let fontSize := options.fontSize.getD "14px"
  let language := options.language.getD "auto"
  let showLineNumbers := options.showLineNumbers.getD true
  let showWindowControls := options.showWindowControls.getD true
  let padding := options.padding.getD "40px"
  let lineHeight := options.lineHeight.getD "1.6"
  let tabSize := options.tabSize.getD 2
  let themeColors := themeColorsOf theme
  let fontFamilyCSS :=
    if containsSpace fontFamily then "\x27" ++ fontFamily ++ "\x27" else fontFamily
  "\n" ++
  "            </div>\n" ++
  "        </div>\n" ++
  "    </div>\n" ++
  "    \n" ++
  "    <script>\n" ++
  "        (function highlightSyntax() \x7b\n" ++
  "            const codeElement = document.querySelector(\x27code\x27);\n" ++
  "            if (!codeElement) return;\n" ++
  "            \n" ++
  "            let code = codeElement.textContent;\n" ++
  "            const lines = code.split(\x27\\n\x27);\n" ++
  "            const language = \x27" ++
  language ++
  "\x27;\n" ++
  "            \n" ++
  "            // Basic syntax highlighting patterns\n" ++
  "            const patterns = \x7b\n" ++
  "                javascript: [\n" ++
  "                    \x7b regex: /\\/\\/.*$/gm, className: \x27comment\x27 \x7d,\n" ++
  "                    \x7b regex: /\\/\\*[\\s\\S]*?\\*\\//g, className: \x27comment\x27 \x7d,\n" ++
  "                    \x7b regex: /([\"\x27\x60])(?:\\\\.|[^\\\\])*?\\1/g, className: \x27string\x27 \x7d,\n" ++
  "                    \x7b regex: /\\b(\\d+\\.?\\d*|0x[\\da-fA-F]+)\\b/g, className: \x27number\x27 \x7d,\n" ++
  "                    \x7b regex: /\\b(const|let|var|function|return|if|else|for|while|switch|case|break|continue|class|extends|import|export|default|async|await|try|catch|finally|throw|new|this|super)\\b/g, className: \x27keyword\x27 \x7d,\n" ++
  "                    \x7b regex: /\\b(console|Math|Date|String|Number|Array|Object|Promise|JSON)\\b/g, className: \x27class\x27 \x7d,\n" ++
  "                    \x7b regex: /(=|\\+|\\-|\\*|\\/|%|==|===|!=|!==|>|<|>=|<=|&&|\\|\\||!|\\?:|\\.\\.\\.)\\b/g, className: \x27operator\x27 \x7d,\n" ++
  "                    \x7b regex: /([\x7b\x7d()\\[\\];:,])/g, className: \x27punctuation\x27 \x7d\n" ++
  "                ],\n" ++
  "                python: [\n" ++
  "                    \x7b regex: /#.*$/gm, className: \x27comment\x27 \x7d,\n" ++
  "                    \x7b regex: /([\"\x27\"])(?:\\\\.|[^\\\\])*?\\1/g, className: \x27string\x27 \x7d,\n" ++
  "                    \x7b regex: /\\b(\\d+\\.?\\d*)\\b/g, className: \x27number\x27 \x7d,\n" ++
  "                    \x7b regex: /\\b(def|class|return|if|elif|else|for|while|try|except|finally|with|import|from|as|lambda|pass|break|continue|raise|yield|async|await)\\b/g, className: \x27keyword\x27 \x7d,\n" ++
  "                    \x7b regex: /\\b(print|len|range|str|int|float|list|dict|tuple|set|True|False|None)\\b/g, className: \x27class\x27 \x7d\n" ++
  "                ],\n" ++
  "                html: [\n" ++
  "                    \x7b regex: /&lt;!--[\\s\\S]*?--&gt;/g, className: \x27comment\x27 \x7d,\n" ++
  "                    \x7b regex: /&lt;\\/?[a-zA-Z][^&lt;&gt;]*&gt;/g, className: \x27keyword\x27 \x7d,\n" ++
  "                    \x7b regex: /([\"\x27])(?:\\\\.|[^\\\\])*?\\1/g, className: \x27string\x27 \x7d\n" ++
  "                ],\n" ++
  "                css: [\n" ++
  "                    \x7b regex: /\\/\\*[\\s\\S]*?\\*\\//g, className: \x27comment\x27 \x7d,\n" ++
  "                    \x7b regex: /([\"\x27])(?:\\\\.|[^\\\\])*?\\1/g, className: \x27string\x27 \x7d,\n" ++
  "                    \x7b regex: /\\b(\\d+)(px|em|rem|%|s|ms)?\\b/g, className: \x27number\x27 \x7d,\n" ++
  "                    \x7b regex: /\\b(@media|@import|@keyframes|@font-face|@page)\\b/g, className: \x27keyword\x27 \x7d\n" ++
  "                ]\n" ++
  "            \x7d;\n" ++
  "            \n" ++
  "            const langPatterns = patterns[language] || patterns.javascript;\n" ++
  "            \n" ++
  "            langPatterns.forEach((\x7b regex, className \x7d) => \x7b\n" ++
  "                code = code.replace(regex, \x27<span class=\"token \x27 + className + \x27\">$&</span>\x27);\n" ++
  "            \x7d);\n" ++
  "            \n" ++
  "            // Add line numbers\n" ++
  "            if (" ++
  (jsBool showLineNumbers) ++
  ") \x7b\n" ++
  "                let numberedCode = \x27\x27;\n" ++
  "                lines.forEach((line, i) => \x7b\n" ++
  "                    const lineNumber = i + 1;\n" ++
  "                    const lineContent = line || \x27 \x27;\n" ++
  "                    numberedCode += \x27<div class=\"line\">\x27;\n" ++
  "                    numberedCode += \x27<span class=\"line-number\">\x27 + lineNumber + \x27</span>\x27;\n" ++
  "                    numberedCode += \x27<span class=\"line-content\">\x27 + lineContent + \x27</span>\x27;\n" ++
  "                    numberedCode += \x27</div>\x27;\n" ++
  "                \x7d);\n" ++
  "                code = numberedCode;\n" ++
  "            \x7d\n" ++
  "            \n" ++
  "            codeElement.innerHTML = code;\n" ++
  "        \x7d)();\n" ++
  "    </script>\n" ++
  "</body>\n" ++
  "</html>"

/-- Template text from the `</code></pre>` closing of the code block to the
end of the document. -/
def templateTail (options : RenderOptions) : String :=
  "</code></pre>" ++ templateTailBody options

/-- `generateHTMLTemplate` (server.js lines 160-444): the document is the
head, the escaped code and the tail.  The `code` argument is `Option String`
(`none` = nullish, handled by the falsy guard of `escapeHTML`). -/
def generateHTMLTemplate (code : Option String) (options : RenderOptions) : String :=
  templateHead options ++ escapeHTML code ++ templateTail options

/-! ## Result cache accessors (server.js lines 459-483) -/

/-- JSON values of response bodies and cache entries. -/
inductive JVal where
  | jstr (s : String)
  | jnum (n : Int)
  | jbool (b : Bool)
  | jobj (fields : List (String × JVal))

/-- Outcome of one underlying store read: a stored entry, no entry, or a
thrown error. -/
inductive StoreGetOutcome where
  | found (entry : List (String × JVal))
  | missing
  | fail

/-- The external key-value store (Redis) as the behavior of its two used
operations. -/
structure CacheStore where
  getOutcome : String → StoreGetOutcome
  setFails : String → Bool

/-- `getFromCache` (server.js lines 459-469): `null` without a configured
client (`this.redisClient`); a throwing read is swallowed by the `catch` and
yields `null`; a missing entry yields `null`; a hit returns the parsed
entry.  (`JSON.parse` of the stored text is modeled by storing the
structure; a corrupt-entry parse failure is folded into the
`fail` outcome, which the same `catch` swallows.) -/
def getFromCache (client : Option CacheStore) (key : String) :
    Option (List (String × JVal)) :=
  match client with
  | none => none
  | some st =>
    match st.getOutcome key with
    | .fail => none
    | .missing => none
    | .found v => some v

/-- `setToCache` (server.js lines 471-483): `false` without a client, `false`
when the store write throws (swallowed by its `catch`), `true` on success.
The `ttl` argument (default 3600s, passed as the `EX` option) has no further
observable effect here. -/
def setToCache (client : Option CacheStore) (key : String) : Bool :=
  match client with
  | none => false
  | some st => !st.setFails key

/-! ## Input validation of `POST /api/generate` (server.js lines 510-525) -/

/-- One field-level validation error (`errors.array()` element: field path
and message). -/
structure ValError where
  path : String
  msg : String
  deriving DecidableEq

/-- The pattern `^\d+(px|em|rem)$` (server.js lines 521 and 524). -/
def isCssLen (s : String) : Bool :=
  let d := s.data.takeWhile Char.isDigit
  let rest := s.data.dropWhile Char.isDigit
  !d.isEmpty && (rest == "px".data || rest == "em".data || rest == "rem".data)

/-- A request body for `POST /api/generate`: `const { code, options = {} } =
req.body` — an absent options object is the empty one; `code` is modeled as
a string (absent/`undefined` as the empty string, which fails `notEmpty`
just as `undefined` does). -/
structure GenRequest where
  code : String
  options : List (String × Prim)

/-- `isIn(['dark', 'light', 'solarized'])` on a present `options.theme`. -/
def themeValid (v : Prim) : Bool :=
  match v with
  | .pstr s => s == "dark" || s == "light" || s == "solarized"
  | _ => false

/-- `matches(/^\d+(px|em|rem)$/)` on a present option value. -/
def cssLenValid (v : Prim) : Bool :=
  match v with
  | .pstr s => isCssLen s
  | _ => false

/-- The validator chain (server.js lines 511-525): `code` must be non-empty
(`notEmpty`), a string (`isString`, guaranteed by the model's type) and at
most 10000 characters (`isLength({ max: 10000 })`); `options.theme`,
`options.fontSize` and `options.padding` are `optional()` and only checked
when present.  String length is Lean character count (JS counts UTF-16
units; the two agree outside surrogate pairs). -/
def validateGenerate (r : GenRequest) : List ValError :=
  (if r.code = "" then [⟨"code", "Code is required"⟩] else []) ++
  (if r.code.length > 10000 then [⟨"code", "Code too long (max 10000 chars)"⟩] else []) ++
  (match r.options.lookup "theme" with
   | none => []
   | some v => if themeValid v then [] else [⟨"options.theme", "Invalid theme"⟩]) ++
  (match r.options.lookup "fontSize" with
   | none => []
   | some v => if cssLenValid v then []
     else [⟨"options.fontSize", "Invalid font size format"⟩]) ++
  (match r.options.lookup "padding" with
   | none => []
   | some v => if cssLenValid v then [] else [⟨"options.padding", "Invalid padding format"⟩])

def primStr : Option Prim → Option String
  | some (.pstr s) => some s
  | _ => none

def primBool : Option Prim → Option Bool
  | some (.pbool b) => some b
  | _ => none

def primNat : Option Prim → Option Nat
  | some (.pnum n) => some n
  | _ => none

/-- The request's options object as consumed by the destructuring of
`generateHTMLTemplate` (server.js lines 161-172): a present field of the
documented type is taken, an absent field triggers the default; a present
field of a wrong type cannot occur for the validated fields of a validated
request, and is modeled as absent for the others. -/
def readOptions (o : List (String × Prim)) : RenderOptions :=
  { theme := primStr (o.lookup "theme")
    backgroundColor := primStr (o.lookup "backgroundColor")
    fontFamily := primStr (o.lookup "fontFamily")
    fontSize := primStr (o.lookup "fontSize")
    language := primStr (o.lookup "language")
    showLineNumbers := primBool (o.lookup "showLineNumbers")
    showWindowControls := primBool (o.lookup "showWindowControls")
    padding := primStr (o.lookup "padding")
    lineHeight := primStr (o.lookup "lineHeight")
    tabSize := primNat (o.lookup "tabSize") }

/-! ## The `POST /api/generate` handler (server.js lines 526-646)

The handler is a pure function of the request and of an environment stating
the outcome of every effectful step.  Its trace records the page lifecycle:
`.opened` when `browser.newPage()` returns a page, `.closed` for each
invocation of `page.close()` (the success path closes at line 611; the inner
`catch` at line 631 closes again, with its own error swallowed by
`.catch(() => {})`, before rethrowing to the outer catch). -/

/-- The element measurement produced by the in-page script (server.js lines
581-591): `Math.floor`ed position and `Math.ceil`ed size. -/
structure Dims where
  x : Int
  y : Int
  width : Int
  height : Int
  deriving DecidableEq

/-- Outcome of each browser-page step of one request.  `evalResult` is the
result of the measuring `page.evaluate`: `Except.error` models the call
throwing (timeout/protocol failure), `Except.ok none` the script finding no
`.carbon-container` element (the script's `null`), `Except.ok (some d)` a
measurement.  `shotResult` is the screenshot's base64 text or a throw;
`closeOk` is whether the success-path `page.close()` (line 611) returns
normally. -/
structure PageEnv where
  newPageOk : Bool
  setContentOk : Bool
  waitOk : Bool
  evalResult : Except Unit (Option Dims)
  shotResult : Except Unit String
  closeOk : Bool

/-- Process state the handler reads: the cache client, the browser readiness
flag and instance (server.js lines 26-27), the page-step outcomes, and the
clock (`new Date().toISOString()` of this request). -/
structure GenEnv where
  redisClient : Option CacheStore
  isBrowserReady : Bool
  browserPresent : Bool
  page : PageEnv
  now : String

inductive PageEvent where
  | opened
  | closed
  deriving DecidableEq

/-- Observable outcome of one handler run: HTTP status, JSON body, the
validation error list of a 400 response, the page-lifecycle trace, and the
`setToCache` calls made (key and value). -/
structure HandlerOut where
  status : Nat
  body : List (String × JVal)
  verrors : List ValError
  trace : List PageEvent
  cacheWrites : List (String × List (String × JVal))

/-- JS object spread update `{...m, k: v}`: an existing key keeps its
position and receives the new value, a fresh key is appended (JSON-parsed
objects carry no duplicate keys). -/
def jsSet (m : List (String × JVal)) (k : String) (v : JVal) : List (String × JVal) :=
  match m with
  | [] => [(k, v)]
  | p :: rest => if p.1 = k then (k, v) :: rest else p :: jsSet rest k v

/-- The handler's cache key (server.js line 540): `cacheKey` over the code's
bytes.  ASCII code points coincide with their UTF-8 bytes; a multi-byte code
point is abstracted as its code point (no handler claim depends on the
key text). -/
def cacheKeyStr (code : String) (options : List (String × Prim)) : String :=
  ⟨cacheKey (code.data.map Char.toNat) options⟩

/-- The 500 response of the outer `catch` (server.js lines 635-644).  The
`message` field is `undefined` outside development mode and is dropped by
the JSON serializer; the development-mode message is not modeled. -/
def err500Body (now : String) : List (String × JVal) :=
  [("success", .jbool false), ("error", .jstr "Failed to generate image"),
   ("timestamp", .jstr now)]

/-- The `POST /api/generate` handler (server.js lines 526-646), branch by
branch: 400 on validation errors (lines 529-535); the cache hit answered
with the entry re-marked `cached: true` and a fresh timestamp (lines
543-550); 503 with `fallback: true` when the browser is not ready (lines
553-559); then the page pipeline — open page, build the document with
`generateHTMLTemplate`, `setContent`, `waitForFunction`, evaluate the
measurement (throwing `Could not find code container` on `null`),
screenshot (clip capped at 1920×1080), close, cache the result, respond 200
— with every inner throw landing in the `catch` that closes the page and
rethrows to the 500-producing outer catch. -/
def generateHandler (env : GenEnv) (req : GenRequest) : HandlerOut :=
  let errs := validateGenerate req
  if errs ≠ [] then
    { status := 400, body := [("success", .jbool false)], verrors := errs,
      trace := [], cacheWrites := [] }
  else
    let key := cacheKeyStr req.code req.options
    match getFromCache env.redisClient key with
    | some cached =>
      { status := 200,
        body := jsSet (jsSet cached "cached" (.jbool true)) "timestamp" (.jstr env.now),
        verrors := [], trace := [], cacheWrites := [] }
    | none =>
      if ¬(env.isBrowserReady ∧ env.browserPresent) then
        { status := 503,
          body := [("success", .jbool false),
            ("error", .jstr "Image generation service is temporarily unavailable"),
            ("fallback", .jbool true)],
          verrors := [], trace := [], cacheWrites := [] }
      else
        if ¬env.page.newPageOk then
          { status := 500, body := err500Body env.now, verrors := [],
            trace := [], cacheWrites := [] }
        else
          let html := generateHTMLTemplate (some req.code) (readOptions req.options)
          if ¬env.page.setContentOk then
            { status := 500, body := err500Body env.now, verrors := [],
              trace := [.opened, .closed], cacheWrites := [] }
          else if ¬env.page.waitOk then
            { status := 500, body := err500Body env.now, verrors := [],
              trace := [.opened, .closed], cacheWrites := [] }
          else
            match env.page.evalResult with
            | .error _ =>
              { status := 500, body := err500Body env.now, verrors := [],
                trace := [.opened, .closed], cacheWrites := [] }
            | .ok none =>
              { status := 500, body := err500Body env.now, verrors := [],
                trace := [.opened, .closed], cacheWrites := [] }
            | .ok (some d) =>
              match env.page.shotResult with
              | .error _ =>
                { status := 500, body := err500Body env.now, verrors := [],
                  trace := [.opened, .closed], cacheWrites := [] }
              | .ok shot =>
                if ¬env.page.closeOk then
                  { status := 500, body := err500Body env.now, verrors := [],
                    trace := [.opened, .closed, .closed], cacheWrites := [] }
                else
                  let result : List (String × JVal) :=
                    [("success", .jbool true),
                     ("image", .jstr ("data:image/png;base64," ++ shot)),
                     ("dimensions", .jobj
                       [("width", .jnum d.width), ("height", .jnum d.height)]),
                     ("cached", .jbool false),
                     ("timestamp", .jstr env.now)]
                  { status := 200, body := result, verrors := [],
                    trace := [.opened, .closed], cacheWrites := [(key, result)] }

/-- `POST /api/generate/fallback` (server.js lines 696-714).  `code` is the
body's code field, with an absent field as the empty string (both falsy in
`if (!code)`). -/
def fallbackHandler (now : String) (code : String) : Nat × List (String × JVal) :=
  if code = "" then
    (400, [("success", .jbool false), ("error", .jstr "Code is required")])
  else
    (200, [("success", .jbool true),
      ("message", .jstr "Fallback mode active. Install Puppeteer for image generation."),
      ("codePreview", .jstr (code.take 200 ++ (if 200 < code.length then "..." else ""))),
      ("length", .jnum code.length),
      ("timestamp", .jstr now)])

/-! ## Helper lemmas for the claims -/

/-- Number of positions of `hay` at which `needle` occurs (substring
occurrence count). -/
def countSub : List Char → List Char → Nat
  | [], n => if n.isPrefixOf [] then 1 else 0
  | c :: r, n => (if n.isPrefixOf (c :: r) then 1 else 0) + countSub r n

/-! ## Concrete sample inputs used by witnesses and counterexamples -/

/-- A page whose every step succeeds. -/
def okPage : PageEnv :=
  { newPageOk := true, setContentOk := true, waitOk := true,
    evalResult := Except.ok (some ⟨0, 0, 800, 600⟩),
    shotResult := Except.ok "QUJD", closeOk := true }

/-- A healthy environment: no cache client, browser ready, all steps
succeed. -/
def okEnv : GenEnv :=
  { redisClient := none, isBrowserReady := true, browserPresent := true,
    page := okPage, now := "2024-01-01T00:00:00.000Z" }

/-- A minimal valid request. -/
def okReq : GenRequest := { code := "x", options := [] }

/-- A store whose reads throw and whose writes fail. -/
def failStore : CacheStore :=
  { getOutcome := fun _ => .fail, setFails := fun _ => true }

/-- A stored cache entry carrying `cached: false` and a stale timestamp. -/
def oldEntry : List (String × JVal) :=
  [("success", .jbool true), ("cached", .jbool false),
   ("timestamp", .jstr "1999-01-01T00:00:00.000Z")]

/-- A store that returns `oldEntry` for every key. -/
def hitStore : CacheStore :=
  { getOutcome := fun _ => .found oldEntry, setFails := fun _ => false }

/-- `okEnv` with the hit-producing store configured. -/
def hitEnv : GenEnv := { okEnv with redisClient := some hitStore }

/-- `okEnv` with the browser never ready. -/
def downEnv : GenEnv := { okEnv with isBrowserReady := false }

theorem escHTMLChars_nil : escHTMLChars [] = [] := rfl

theorem escHTMLChars_cons (c : Char) (t : List Char) :
    escHTMLChars (c :: t) = escChar c ++ escHTMLChars t := rfl

theorem unescGo_nilList (fuel : Nat) : unescGo fuel [] = [] := by
  cases fuel <;> rfl

theorem unescGo_amp (f : Nat) (E : List Char) :
    unescGo (f+1) ('&' :: 'a' :: 'm' :: 'p' :: ';' :: E) = '&' :: unescGo f E := by
  rw [unescGo]; simp +decide [List.isPrefixOf]

theorem unescGo_lt (f : Nat) (E : List Char) :
    unescGo (f+1) ('&' :: 'l' :: 't' :: ';' :: E) = '<' :: unescGo f E := by
  rw [unescGo]; simp +decide [List.isPrefixOf]

theorem unescGo_gt (f : Nat) (E : List Char) :
    unescGo (f+1) ('&' :: 'g' :: 't' :: ';' :: E) = '>' :: unescGo f E := by
  rw [unescGo]; simp +decide [List.isPrefixOf]

theorem unescGo_quot (f : Nat) (E : List Char) :
    unescGo (f+1) ('&' :: 'q' :: 'u' :: 'o' :: 't' :: ';' :: E) = '"' :: unescGo f E := by
  rw [unescGo]; simp +decide [List.isPrefixOf]

theorem unescGo_apos (f : Nat) (E : List Char) :
    unescGo (f+1) ('&' :: '#' :: '0' :: '3' :: '9' :: ';' :: E) =
      Char.ofNat 39 :: unescGo f E := by
  rw [unescGo]; simp +decide [List.isPrefixOf]

theorem unescGo_nbsp (f : Nat) (E : List Char) :
    unescGo (f+1) ('&' :: 'n' :: 'b' :: 's' :: 'p' :: ';' :: E) = ' ' :: unescGo f E := by
  rw [unescGo]; simp +decide [List.isPrefixOf]

theorem unescGo_br (f : Nat) (E : List Char) :
    unescGo (f+1) ('<' :: 'b' :: 'r' :: '>' :: E) = '\n' :: unescGo f E := by
  rw [unescGo]; simp +decide [List.isPrefixOf]

theorem unescGo_plain (f : Nat) (c : Char) (r : List Char) (h1 : c ≠ '&') (h2 : c ≠ '<') :
    unescGo (f+1) (c :: r) = c :: unescGo f r := by
  simp [unescGo, List.isPrefixOf, Ne.symm h1, Ne.symm h2]

theorem noRawGo_nilList (fuel : Nat) : noRawGo fuel [] = true := by
  cases fuel <;> rfl

theorem noRawGo_amp (f : Nat) (E : List Char) :
    noRawGo (f+1) ('&' :: 'a' :: 'm' :: 'p' :: ';' :: E) = noRawGo f E := by
  rw [noRawGo]; simp +decide [List.isPrefixOf]

theorem noRawGo_lt (f : Nat) (E : List Char) :
    noRawGo (f+1) ('&' :: 'l' :: 't' :: ';' :: E) = noRawGo f E := by
  rw [noRawGo]; simp +decide [List.isPrefixOf]

theorem noRawGo_gt (f : Nat) (E : List Char) :
    noRawGo (f+1) ('&' :: 'g' :: 't' :: ';' :: E) = noRawGo f E := by
  rw [noRawGo]; simp +decide [List.isPrefixOf]

theorem noRawGo_quot (f : Nat) (E : List Char) :
    noRawGo (f+1) ('&' :: 'q' :: 'u' :: 'o' :: 't' :: ';' :: E) = noRawGo f E := by
  rw [noRawGo]; simp +decide [List.isPrefixOf]

theorem noRawGo_apos (f : Nat) (E : List Char) :
    noRawGo (f+1) ('&' :: '#' :: '0' :: '3' :: '9' :: ';' :: E) = noRawGo f E := by
  rw [noRawGo]; simp +decide [List.isPrefixOf]

theorem noRawGo_nbsp (f : Nat) (E : List Char) :
    noRawGo (f+1) ('&' :: 'n' :: 'b' :: 's' :: 'p' :: ';' :: E) = noRawGo f E := by
  rw [noRawGo]; simp +decide [List.isPrefixOf]

theorem noRawGo_br (f : Nat) (E : List Char) :
    noRawGo (f+1) ('<' :: 'b' :: 'r' :: '>' :: E) = noRawGo f E := by
  rw [noRawGo]; simp +decide [List.isPrefixOf]

theorem noRawGo_plain (f : Nat) (c : Char) (r : List Char)
    (h1 : c ≠ '&') (h2 : c ≠ '<') (h3 : c ≠ '>') :
    noRawGo (f+1) (c :: r) = noRawGo f r := by
  simp [noRawGo, List.isPrefixOf, Ne.symm h1, Ne.symm h2, h1, h2, h3]

/-- Round trip of the escaper on tab-free character lists, with sufficient
fuel. -/
theorem unescGo_esc (l : List Char) : ∀ fuel : Nat,
    (escHTMLChars l).length ≤ fuel → '\t' ∉ l → unescGo fuel (escHTMLChars l) = l := by
  induction l with
  | nil => intro fuel _ _; exact unescGo_nilList fuel
  | cons c t ih =>
    intro fuel hf ht
    have htab : c ≠ '\t' := fun hc => ht (hc ▸ List.mem_cons_self c t)
    have ht' : '\t' ∉ t := fun hm => ht (List.mem_cons_of_mem _ hm)
    rw [escHTMLChars_cons] at hf ⊢
    by_cases h1 : c = '&'
    · subst h1
      rw [show escChar '&' ++ escHTMLChars t = '&' :: 'a' :: 'm' :: 'p' :: ';' :: escHTMLChars t
          from rfl] at hf ⊢
      obtain ⟨f, rfl⟩ : ∃ f, fuel = f + 1 := by
        cases fuel with
        | zero => simp at hf
        | succ n => exact ⟨n, rfl⟩
      rw [unescGo_amp, ih f (by simp at hf ⊢; omega) ht']
    · by_cases h2 : c = '<'
      · subst h2
        rw [show escChar '<' ++ escHTMLChars t = '&' :: 'l' :: 't' :: ';' :: escHTMLChars t
            from rfl] at hf ⊢
        obtain ⟨f, rfl⟩ : ∃ f, fuel = f + 1 := by
          cases fuel with
          | zero => simp at hf
          | succ n => exact ⟨n, rfl⟩
        rw [unescGo_lt, ih f (by simp at hf ⊢; omega) ht']
      · by_cases h3 : c = '>'
        · subst h3
          rw [show escChar '>' ++ escHTMLChars t = '&' :: 'g' :: 't' :: ';' :: escHTMLChars t
              from rfl] at hf ⊢
          obtain ⟨f, rfl⟩ : ∃ f, fuel = f + 1 := by
            cases fuel with
            | zero => simp at hf
            | succ n => exact ⟨n, rfl⟩
          rw [unescGo_gt, ih f (by simp at hf ⊢; omega) ht']
        · by_cases h4 : c = '"'
          · subst h4
            rw [show escChar '"' ++ escHTMLChars t
                = '&' :: 'q' :: 'u' :: 'o' :: 't' :: ';' :: escHTMLChars t from rfl] at hf ⊢
            obtain ⟨f, rfl⟩ : ∃ f, fuel = f + 1 := by
              cases fuel with
              | zero => simp at hf
              | succ n => exact ⟨n, rfl⟩
            rw [unescGo_quot, ih f (by simp at hf ⊢; omega) ht']
          · by_cases h5 : c = Char.ofNat 39
            · subst h5
              rw [show escChar (Char.ofNat 39) ++ escHTMLChars t
                  = '&' :: '#' :: '0' :: '3' :: '9' :: ';' :: escHTMLChars t from rfl] at hf ⊢
              obtain ⟨f, rfl⟩ : ∃ f, fuel = f + 1 := by
                cases fuel with
                | zero => simp at hf
                | succ n => exact ⟨n, rfl⟩
              rw [unescGo_apos, ih f (by simp at hf ⊢; omega) ht']
            · by_cases h6 : c = '\n'
              · subst h6
                rw [show escChar '\n' ++ escHTMLChars t
                    = '<' :: 'b' :: 'r' :: '>' :: escHTMLChars t from rfl] at hf ⊢
                obtain ⟨f, rfl⟩ : ∃ f, fuel = f + 1 := by
                  cases fuel with
                  | zero => simp at hf
                  | succ n => exact ⟨n, rfl⟩
                rw [unescGo_br, ih f (by simp at hf ⊢; omega) ht']
              · by_cases h8 : c = ' '
                · subst h8
                  rw [show escChar ' ' ++ escHTMLChars t
                      = '&' :: 'n' :: 'b' :: 's' :: 'p' :: ';' :: escHTMLChars t from rfl]
                    at hf ⊢
                  obtain ⟨f, rfl⟩ : ∃ f, fuel = f + 1 := by
                    cases fuel with
                    | zero => simp at hf
                    | succ n => exact ⟨n, rfl⟩
                  rw [unescGo_nbsp, ih f (by simp at hf ⊢; omega) ht']
                · have hpiece : escChar c = [c] := by
                    rw [escChar]
                    simp only [h1, h2, h3, h4, h5, h6, htab, h8, if_false]
                  rw [hpiece, List.singleton_append] at hf ⊢
                  obtain ⟨f, rfl⟩ : ∃ f, fuel = f + 1 := by
                    cases fuel with
                    | zero => simp at hf
                    | succ n => exact ⟨n, rfl⟩
                  rw [unescGo_plain f c _ h1 h2, ih f (by simp at hf ⊢; omega) ht']

/-- Round trip of the escaper on tab-free character lists. -/
theorem unesc_escHTMLChars (l : List Char) (h : '\t' ∉ l) :
    unescChars (escHTMLChars l) = l :=
  unescGo_esc l _ le_rfl h

/-- In `escapeHTML` output no raw `<`, `>` or `&` survives, with sufficient
fuel. -/
theorem noRawGo_esc (l : List Char) : ∀ fuel : Nat,
    (escHTMLChars l).length ≤ fuel → noRawGo fuel (escHTMLChars l) = true := by
  induction l with
  | nil => intro fuel _; exact noRawGo_nilList fuel
  | cons c t ih =>
    intro fuel hf
    rw [escHTMLChars_cons] at hf ⊢
    by_cases h1 : c = '&'
    · subst h1
      rw [show escChar '&' ++ escHTMLChars t = '&' :: 'a' :: 'm' :: 'p' :: ';' :: escHTMLChars t
          from rfl] at hf ⊢
      obtain ⟨f, rfl⟩ : ∃ f, fuel = f + 1 := by
        cases fuel with
        | zero => simp at hf
        | succ n => exact ⟨n, rfl⟩
      rw [noRawGo_amp]
      exact ih f (by simp at hf ⊢; omega)
    · by_cases h2 : c = '<'
      · subst h2
        rw [show escChar '<' ++ escHTMLChars t = '&' :: 'l' :: 't' :: ';' :: escHTMLChars t
            from rfl] at hf ⊢
        obtain ⟨f, rfl⟩ : ∃ f, fuel = f + 1 := by
          cases fuel with
          | zero => simp at hf
          | succ n => exact ⟨n, rfl⟩
        rw [noRawGo_lt]
        exact ih f (by simp at hf ⊢; omega)
      · by_cases h3 : c = '>'
        · subst h3
          rw [show escChar '>' ++ escHTMLChars t = '&' :: 'g' :: 't' :: ';' :: escHTMLChars t
              from rfl] at hf ⊢
          obtain ⟨f, rfl⟩ : ∃ f, fuel = f + 1 := by
            cases fuel with
            | zero => simp at hf
            | succ n => exact ⟨n, rfl⟩
          rw [noRawGo_gt]
          exact ih f (by simp at hf ⊢; omega)
        · by_cases h4 : c = '"'
          · subst h4
            rw [show escChar '"' ++ escHTMLChars t
                = '&' :: 'q' :: 'u' :: 'o' :: 't' :: ';' :: escHTMLChars t from rfl] at hf ⊢
            obtain ⟨f, rfl⟩ : ∃ f, fuel = f + 1 := by
              cases fuel with
              | zero => simp at hf
              | succ n => exact ⟨n, rfl⟩
            rw [noRawGo_quot]
            exact ih f (by simp at hf ⊢; omega)
          · by_cases h5 : c = Char.ofNat 39
            · subst h5
              rw [show escChar (Char.ofNat 39) ++ escHTMLChars t
                  = '&' :: '#' :: '0' :: '3' :: '9' :: ';' :: escHTMLChars t from rfl] at hf ⊢
              obtain ⟨f, rfl⟩ : ∃ f, fuel = f + 1 := by
                cases fuel with
                | zero => simp at hf
                | succ n => exact ⟨n, rfl⟩
              rw [noRawGo_apos]
              exact ih f (by simp at hf ⊢; omega)
            · by_cases h6 : c = '\n'
              · subst h6
                rw [show escChar '\n' ++ escHTMLChars t
                    = '<' :: 'b' :: 'r' :: '>' :: escHTMLChars t from rfl] at hf ⊢
                obtain ⟨f, rfl⟩ : ∃ f, fuel = f + 1 := by
                  cases fuel with
                  | zero => simp at hf
                  | succ n => exact ⟨n, rfl⟩
                rw [noRawGo_br]
                exact ih f (by simp at hf ⊢; omega)
              · by_cases h7 : c = '\t'
                · subst h7
                  rw [show escChar '\t' ++ escHTMLChars t
                      = '&' :: 'n' :: 'b' :: 's' :: 'p' :: ';' ::
                        '&' :: 'n' :: 'b' :: 's' :: 'p' :: ';' ::
                        '&' :: 'n' :: 'b' :: 's' :: 'p' :: ';' ::
                        '&' :: 'n' :: 'b' :: 's' :: 'p' :: ';' :: escHTMLChars t from rfl]
                    at hf ⊢
                  obtain ⟨f, rfl⟩ : ∃ f, fuel = f + 4 := by
                    refine ⟨fuel - 4, ?_⟩
                    simp at hf
                    omega
                  rw [noRawGo_nbsp, noRawGo_nbsp, noRawGo_nbsp, noRawGo_nbsp]
                  exact ih f (by simp at hf ⊢; omega)
                · by_cases h8 : c = ' '
                  · subst h8
                    rw [show escChar ' ' ++ escHTMLChars t
                        = '&' :: 'n' :: 'b' :: 's' :: 'p' :: ';' :: escHTMLChars t from rfl]
                      at hf ⊢
                    obtain ⟨f, rfl⟩ : ∃ f, fuel = f + 1 := by
                      cases fuel with
                      | zero => simp at hf
                      | succ n => exact ⟨n, rfl⟩
                    rw [noRawGo_nbsp]
                    exact ih f (by simp at hf ⊢; omega)
                  · have hpiece : escChar c = [c] := by
                      rw [escChar]
                      simp only [h1, h2, h3, h4, h5, h6, h7, h8, if_false]
                    rw [hpiece, List.singleton_append] at hf ⊢
                    obtain ⟨f, rfl⟩ : ∃ f, fuel = f + 1 := by
                      cases fuel with
                      | zero => simp at hf
                      | succ n => exact ⟨n, rfl⟩
                    rw [noRawGo_plain f c _ h1 h2 h3]
                    exact ih f (by simp at hf ⊢; omega)

/-- In `escapeHTML` output no raw `<`, `>` or `&` survives: every such
character sits inside a produced entity or a `<br>` line break. -/
theorem noRaw_escHTMLChars (l : List Char) :
    noRawSpecials (escHTMLChars l) = true :=
  noRawGo_esc l _ le_rfl

theorem digitsVal_append_last (A : List Char) (c : Char) :
    digitsVal (A ++ [c]) = digitsVal A * 10 + digitVal c := by
  simp [digitsVal, List.foldl_append]

theorem digitVal_digitChar : ∀ m, m < 10 → digitVal (Nat.digitChar m) = m := by decide

theorem isDigit_digitChar : ∀ m, m < 10 → (Nat.digitChar m).isDigit = true := by decide

theorem natReprGo_val : ∀ fuel n, n < fuel → digitsVal (natReprGo fuel n) = n := by
  intro fuel
  induction fuel with
  | zero => intro n hn; omega
  | succ f ih =>
    intro n hn
    rw [natReprGo]
    by_cases h : n < 10
    · simp only [h, if_true]
      simpa [digitsVal] using digitVal_digitChar n h
    · simp only [h, if_false]
      have hd : n / 10 < n := Nat.div_lt_self (by omega) (by omega)
      rw [digitsVal_append_last, ih (n / 10) (by omega),
        digitVal_digitChar (n % 10) (by omega)]
      omega

/-- Decimal printing is recovered by digit evaluation. -/
theorem digitsVal_natRepr (n : Nat) : digitsVal (natRepr n) = n :=
  natReprGo_val (n + 1) n (by omega)

theorem natRepr_injective (m n : Nat) (h : natRepr m = natRepr n) : m = n := by
  have := digitsVal_natRepr m
  rw [h, digitsVal_natRepr] at this
  omega

theorem natReprGo_digits : ∀ fuel n, ∀ c ∈ natReprGo fuel n, c.isDigit = true := by
  intro fuel
  induction fuel with
  | zero => intro n c hc; simp [natReprGo] at hc
  | succ f ih =>
    intro n c hc
    rw [natReprGo] at hc
    by_cases h : n < 10
    · simp only [h, if_true, List.mem_singleton] at hc
      subst hc
      exact isDigit_digitChar n h
    · simp only [h, if_false, List.mem_append, List.mem_singleton] at hc
      rcases hc with hc | hc
      · exact ih _ c hc
      · subst hc
        exact isDigit_digitChar (n % 10) (by omega)

theorem natRepr_digits (n : Nat) : ∀ c ∈ natRepr n, c.isDigit = true :=
  natReprGo_digits (n + 1) n

theorem natRepr_ne_nil (n : Nat) : natRepr n ≠ [] := by
  rw [natRepr, natReprGo]
  by_cases h : n < 10 <;> simp [h]

theorem b64idx_b64c : ∀ n, n < 64 → b64idx (b64c n) = n := by decide

theorem b64c_lt_ne_pad : ∀ n, n < 64 → b64c n ≠ '=' := by decide

theorem b64c_ne_pad (n : Nat) : b64c n ≠ '=' := by
  by_cases h : n < 64
  · exact b64c_lt_ne_pad n h
  · rw [b64c, List.getD_eq_default]
    · decide
    · simp [b64Table]
      omega

theorem b64c_lt_ne_colon : ∀ n, n < 64 → b64c n ≠ ':' := by decide

theorem b64c_ne_colon (n : Nat) : b64c n ≠ ':' := by
  by_cases h : n < 64
  · exact b64c_lt_ne_colon n h
  · rw [b64c, List.getD_eq_default]
    · decide
    · simp [b64Table]
      omega

/-- Base64 output never contains `:` (the separator of the cache key). -/
theorem base64Encode_no_colon : ∀ l : List Nat, ':' ∉ base64Encode l := by
  intro l
  induction l using base64Encode.induct with
  | case1 => simp [base64Encode]
  | case2 a =>
    simp only [base64Encode, List.mem_cons, List.not_mem_nil, or_false]
    push_neg
    refine ⟨?_, ?_, by decide, by decide⟩ <;> exact fun h => b64c_ne_colon _ h.symm
  | case3 a b =>
    simp only [base64Encode, List.mem_cons, List.not_mem_nil, or_false]
    push_neg
    refine ⟨?_, ?_, ?_, by decide⟩ <;> exact fun h => b64c_ne_colon _ h.symm
  | case4 a b c rest ih =>
    simp only [base64Encode, List.mem_cons]
    push_neg
    exact ⟨fun h => b64c_ne_colon _ h.symm, fun h => b64c_ne_colon _ h.symm,
      fun h => b64c_ne_colon _ h.symm, fun h => b64c_ne_colon _ h.symm, ih⟩

/-- Decoding inverts encoding on byte lists (bytes below 256). -/
theorem base64Decode_encode : ∀ l : List Nat, (∀ x ∈ l, x < 256) →
    base64Decode (base64Encode l) = some l := by
  intro l
  induction l using base64Encode.induct with
  | case1 => intro _; rfl
  | case2 a =>
    intro hb
    have ha : a < 256 := hb a (by simp)
    rw [base64Encode]
    rw [base64Decode]
    rw [if_pos rfl, if_pos ⟨rfl, rfl⟩]
    rw [b64idx_b64c _ (by omega), b64idx_b64c _ (by omega)]
    congr 1
    congr 1
    omega
  | case3 a b =>
    intro hb
    have ha : a < 256 := hb a (by simp)
    have hbb : b < 256 := hb b (by simp)
    rw [base64Encode]
    rw [base64Decode]
    rw [if_neg (b64c_ne_pad _), if_pos rfl, if_pos rfl]
    rw [b64idx_b64c _ (by omega), b64idx_b64c _ (by omega), b64idx_b64c _ (by omega)]
    congr 1
    congr 1
    · omega
    · congr 1
      omega
  | case4 a b c rest ih =>
    intro hb
    have ha : a < 256 := hb a (by simp)
    have hbb : b < 256 := hb b (by simp)
    have hc : c < 256 := hb c (by simp)
    rw [base64Encode]
    rw [base64Decode]
    rw [if_neg (b64c_ne_pad _), if_neg (b64c_ne_pad _)]
    rw [ih (fun x hx => hb x (by simp [hx]))]
    rw [b64idx_b64c _ (by omega), b64idx_b64c _ (by omega), b64idx_b64c _ (by omega),
      b64idx_b64c _ (by omega)]
    simp only [Option.map_some']
    congr 1
    congr 1
    · omega
    · congr 1
      · omega
      · congr 1
        omega

/-- Encoding byte lists is injective. -/
theorem base64Encode_injective (l1 l2 : List Nat)
    (h1 : ∀ x ∈ l1, x < 256) (h2 : ∀ x ∈ l2, x < 256)
    (h : base64Encode l1 = base64Encode l2) : l1 = l2 := by
  have e1 := base64Decode_encode l1 h1
  have e2 := base64Decode_encode l2 h2
  rw [h, e2] at e1
  exact (Option.some.injEq _ _).mp e1.symm

theorem jstrEsc_cons (c : Char) (t : List Char) :
    jstrEsc (c :: t) = escJsonChar c ++ jstrEsc t := rfl

theorem hexPair_val : ∀ x, x < 32 →
    hexVal (Nat.digitChar (x / 16)) * 16 + hexVal (Nat.digitChar (x % 16)) = x := by decide

theorem unescEsc1_u (h2 h3 : Char) (X : List Char) :
    unescEsc1 ('u' :: '0' :: '0' :: h2 :: h3 :: X) =
      some (Char.ofNat (hexVal h2 * 16 + hexVal h3), X) := by
  simp [unescEsc1]

theorem parseJStr_quoteEnd (f : Nat) (rest : List Char) :
    parseJStr (f+1) ('"' :: rest) = some ([], rest) := by
  simp [parseJStr]

theorem parseJStr_backslash (f : Nat) (r : List Char) :
    parseJStr (f+1) ('\\' :: r) =
      (match unescEsc1 r with
       | none => none
       | some p => (parseJStr f p.2).map (fun q => (p.1 :: q.1, q.2))) := by
  simp [parseJStr]

theorem parseJStr_plain (f : Nat) (c : Char) (X : List Char)
    (h1 : c ≠ '"') (h2 : c ≠ '\\') :
    parseJStr (f+1) (c :: X) = (parseJStr f X).map (fun p => (c :: p.1, p.2)) := by
  simp [parseJStr, h1, h2]

/-- `parseJStr` inverts the JSON string escape (with enough fuel). -/
theorem parseJStr_jstrEsc (s : List Char) : ∀ (fuel : Nat) (rest : List Char),
    (jstrEsc s).length + 1 ≤ fuel →
    parseJStr fuel (jstrEsc s ++ '"' :: rest) = some (s, rest) := by
  induction s with
  | nil =>
    intro fuel rest hf
    obtain ⟨f, rfl⟩ : ∃ f, fuel = f + 1 := by
      cases fuel with
      | zero => omega
      | succ n => exact ⟨n, rfl⟩
    exact parseJStr_quoteEnd f rest
  | cons c t ih =>
    intro fuel rest hf
    obtain ⟨f, rfl⟩ : ∃ f, fuel = f + 1 := by
      cases fuel with
      | zero => omega
      | succ n => exact ⟨n, rfl⟩
    rw [jstrEsc_cons] at hf ⊢
    rw [List.append_assoc]
    by_cases h1 : c = '"'
    · subst h1
      rw [show escJsonChar '"' = ['\\', '"'] from rfl] at hf ⊢
      simp only [List.cons_append, List.nil_append]
      rw [parseJStr_backslash]
      rw [show unescEsc1 ('"' :: (jstrEsc t ++ '"' :: rest)) =
        some ('"', jstrEsc t ++ '"' :: rest) from by simp [unescEsc1]]
      show (parseJStr f (jstrEsc t ++ '"' :: rest)).map
          (fun q => ('"' :: q.1, q.2)) = some ('"' :: t, rest)
      rw [ih f rest (by simp at hf ⊢; omega)]
      rfl
    ·
      by_cases h2 : c = '\\'
      · subst h2
        rw [show escJsonChar '\\' = ['\\', '\\'] from rfl] at hf ⊢
        simp only [List.cons_append, List.nil_append]
        rw [parseJStr_backslash]
        rw [show unescEsc1 ('\\' :: (jstrEsc t ++ '"' :: rest)) =
          some ('\\', jstrEsc t ++ '"' :: rest) from by simp [unescEsc1]]
        show (parseJStr f (jstrEsc t ++ '"' :: rest)).map
            (fun q => ('\\' :: q.1, q.2)) = some ('\\' :: t, rest)
        rw [ih f rest (by simp at hf ⊢; omega)]
        rfl
      ·
        by_cases h3 : c = Char.ofNat 8
        · subst h3
          rw [show escJsonChar (Char.ofNat 8) = ['\\', 'b'] from rfl] at hf ⊢
          simp only [List.cons_append, List.nil_append]
          rw [parseJStr_backslash]
          rw [show unescEsc1 ('b' :: (jstrEsc t ++ '"' :: rest)) =
            some (Char.ofNat 8, jstrEsc t ++ '"' :: rest) from by simp [unescEsc1]]
          show (parseJStr f (jstrEsc t ++ '"' :: rest)).map
              (fun q => (Char.ofNat 8 :: q.1, q.2)) = some (Char.ofNat 8 :: t, rest)
          rw [ih f rest (by simp at hf ⊢; omega)]
          rfl
        ·
          by_cases h4 : c = '\t'
          · subst h4
            rw [show escJsonChar '\t' = ['\\', 't'] from rfl] at hf ⊢
            simp only [List.cons_append, List.nil_append]
            rw [parseJStr_backslash]
            rw [show unescEsc1 ('t' :: (jstrEsc t ++ '"' :: rest)) =
              some ('\t', jstrEsc t ++ '"' :: rest) from by simp [unescEsc1]]
            show (parseJStr f (jstrEsc t ++ '"' :: rest)).map
                (fun q => ('\t' :: q.1, q.2)) = some ('\t' :: t, rest)
            rw [ih f rest (by simp at hf ⊢; omega)]
            rfl
          ·
            by_cases h5 : c = '\n'
            · subst h5
              rw [show escJsonChar '\n' = ['\\', 'n'] from rfl] at hf ⊢
              simp only [List.cons_append, List.nil_append]
              rw [parseJStr_backslash]
              rw [show unescEsc1 ('n' :: (jstrEsc t ++ '"' :: rest)) =
                some ('\n', jstrEsc t ++ '"' :: rest) from by simp [unescEsc1]]
              show (parseJStr f (jstrEsc t ++ '"' :: rest)).map
                  (fun q => ('\n' :: q.1, q.2)) = some ('\n' :: t, rest)
              rw [ih f rest (by simp at hf ⊢; omega)]
              rfl
            ·
              by_cases h6 : c = Char.ofNat 12
              · subst h6
                rw [show escJsonChar (Char.ofNat 12) = ['\\', 'f'] from rfl] at hf ⊢
                simp only [List.cons_append, List.nil_append]
                rw [parseJStr_backslash]
                rw [show unescEsc1 ('f' :: (jstrEsc t ++ '"' :: rest)) =
                  some (Char.ofNat 12, jstrEsc t ++ '"' :: rest) from by simp [unescEsc1]]
                show (parseJStr f (jstrEsc t ++ '"' :: rest)).map
                    (fun q => (Char.ofNat 12 :: q.1, q.2)) = some (Char.ofNat 12 :: t, rest)
                rw [ih f rest (by simp at hf ⊢; omega)]
                rfl
              ·
                by_cases h7 : c = Char.ofNat 13
                · subst h7
                  rw [show escJsonChar (Char.ofNat 13) = ['\\', 'r'] from rfl] at hf ⊢
                  simp only [List.cons_append, List.nil_append]
                  rw [parseJStr_backslash]
                  rw [show unescEsc1 ('r' :: (jstrEsc t ++ '"' :: rest)) =
                    some (Char.ofNat 13, jstrEsc t ++ '"' :: rest) from by simp [unescEsc1]]
                  show (parseJStr f (jstrEsc t ++ '"' :: rest)).map
                      (fun q => (Char.ofNat 13 :: q.1, q.2)) = some (Char.ofNat 13 :: t, rest)
                  rw [ih f rest (by simp at hf ⊢; omega)]
                  rfl
                ·
                  by_cases h8 : c.toNat < 32
                  · have hpiece : escJsonChar c =
                        ['\\', 'u', '0', '0', Nat.digitChar (c.toNat / 16),
                         Nat.digitChar (c.toNat % 16)] := by
                      rw [escJsonChar]
                      simp only [h1, h2, h3, h4, h5, h6, h7, h8, if_false, if_true]
                    rw [hpiece] at hf ⊢
                    simp only [List.cons_append, List.nil_append]
                    rw [parseJStr_backslash]
                    rw [unescEsc1_u]
                    show (parseJStr f (jstrEsc t ++ '"' :: rest)).map
                        (fun q => (Char.ofNat (hexVal (Nat.digitChar (c.toNat / 16)) * 16 +
                          hexVal (Nat.digitChar (c.toNat % 16))) :: q.1, q.2)) = _
                    rw [ih f rest (by simp at hf ⊢; omega)]
                    simp only [Option.map_some']
                    rw [hexPair_val c.toNat h8, Char.ofNat_toNat]
                  · have hpiece : escJsonChar c = [c] := by
                      rw [escJsonChar]
                      simp only [h1, h2, h3, h4, h5, h6, h7, h8, if_false]
                    rw [hpiece] at hf ⊢
                    simp only [List.cons_append, List.nil_append]
                    rw [parseJStr_plain f c _ h1 h2]
                    rw [ih f rest (by simp at hf ⊢; omega)]
                    rfl

theorem takeWhile_all_append (p : Char → Bool) :
    ∀ (A rest : List Char), (∀ a ∈ A, p a = true) →
    (∀ c, rest.head? = some c → p c = false) →
    (A ++ rest).takeWhile p = A ∧ (A ++ rest).dropWhile p = rest := by
  intro A
  induction A with
  | nil =>
    intro rest _ hr
    cases rest with
    | nil => simp
    | cons c t =>
      have hc := hr c rfl
      simp [List.takeWhile_cons, List.dropWhile_cons, hc]
  | cons a A ih =>
    intro rest hA hr
    have ha : p a = true := hA a (by simp)
    have hih := ih rest (fun x hx => hA x (by simp [hx])) hr
    simp [List.takeWhile_cons, List.dropWhile_cons, ha, hih.1, hih.2]

theorem parsePrim_quoteHead (fuel : Nat) (r : List Char) :
    parsePrim fuel ('"' :: r) =
      (parseJStr fuel r).map (fun p => (Prim.pstr ⟨p.1⟩, p.2)) := by
  simp [parsePrim]

theorem parsePrim_digit (fuel : Nat) (c : Char) (X : List Char)
    (h1 : c ≠ '"') (h2 : c.isDigit = true) :
    parsePrim fuel (c :: X) =
      some (Prim.pnum (digitsVal ((c :: X).takeWhile Char.isDigit)),
        (c :: X).dropWhile Char.isDigit) := by
  simp [parsePrim, h1, h2]

theorem parsePrim_true (fuel : Nat) (rest : List Char) :
    parsePrim fuel ('t' :: 'r' :: 'u' :: 'e' :: rest) = some (Prim.pbool true, rest) := by
  simp +decide [parsePrim, List.isPrefixOf]

theorem parsePrim_false (fuel : Nat) (rest : List Char) :
    parsePrim fuel ('f' :: 'a' :: 'l' :: 's' :: 'e' :: rest) =
      some (Prim.pbool false, rest) := by
  simp +decide [parsePrim, List.isPrefixOf]

theorem parsePrim_null (fuel : Nat) (rest : List Char) :
    parsePrim fuel ('n' :: 'u' :: 'l' :: 'l' :: rest) = some (Prim.pnull, rest) := by
  simp +decide [parsePrim, List.isPrefixOf]

/-- `parsePrim` inverts `stringifyPrim` when the remainder does not begin
with a digit (maximal-munch condition for numbers). -/
theorem parsePrim_stringify (v : Prim) (fuel : Nat) (rest : List Char)
    (hf : (stringifyPrim v).length + 1 ≤ fuel)
    (hr : ∀ c, rest.head? = some c → c.isDigit = false) :
    parsePrim fuel (stringifyPrim v ++ rest) = some (v, rest) := by
  cases v with
  | pstr s =>
    show parsePrim fuel (('"' :: (jstrEsc s.data ++ ['"'])) ++ rest) = _
    rw [List.cons_append, List.append_assoc,
      show (['"'] ++ rest : List Char) = '"' :: rest from rfl]
    rw [parsePrim_quoteHead]
    rw [parseJStr_jstrEsc s.data fuel rest
      (by simp [stringifyPrim, quoteStr] at hf; omega)]
    rfl
  | pnum n =>
    obtain ⟨c, r, hcr⟩ := List.exists_cons_of_ne_nil (natRepr_ne_nil n)
    have hdig : c.isDigit = true := natRepr_digits n c (by rw [hcr]; exact List.mem_cons_self _ _)
    have hq : c ≠ '"' := by
      intro h
      rw [h] at hdig
      exact absurd hdig (by decide)
    rw [show stringifyPrim (Prim.pnum n) = natRepr n from rfl, hcr, List.cons_append]
    rw [parsePrim_digit fuel c (r ++ rest) hq hdig]
    rw [show (c :: (r ++ rest)) = natRepr n ++ rest from by rw [← List.cons_append, ← hcr]]
    have htw := takeWhile_all_append Char.isDigit (natRepr n) rest (natRepr_digits n) hr
    rw [htw.1, htw.2, digitsVal_natRepr]
  | pbool b =>
    cases b with
    | true =>
      show parsePrim fuel ('t' :: 'r' :: 'u' :: 'e' :: rest) = _
      exact parsePrim_true fuel rest
    | false =>
      show parsePrim fuel ('f' :: 'a' :: 'l' :: 's' :: 'e' :: rest) = _
      exact parsePrim_false fuel rest
  | pnull =>
    show parsePrim fuel ('n' :: 'u' :: 'l' :: 'l' :: rest) = _
    exact parsePrim_null fuel rest

/-- `parsePair` inverts `encPair` when the remainder does not begin with a
digit. -/
theorem parsePair_encPair (p : String × Prim) (fuel : Nat) (rest : List Char)
    (hf : (encPair p).length + 1 ≤ fuel)
    (hr : ∀ c, rest.head? = some c → c.isDigit = false) :
    parsePair fuel (encPair p ++ rest) = some (p, rest) := by
  obtain ⟨k, v⟩ := p
  show parsePair fuel ((quoteStr k.data ++ ':' :: stringifyPrim v) ++ rest) = _
  rw [List.append_assoc, List.cons_append]
  rw [show quoteStr k.data = '"' :: (jstrEsc k.data ++ ['"']) from rfl, List.cons_append,
    List.append_assoc, show (['"'] ++ (':' :: (stringifyPrim v ++ rest)) : List Char)
      = '"' :: ':' :: (stringifyPrim v ++ rest) from rfl]
  rw [show parsePair fuel
      ('"' :: (jstrEsc k.data ++ '"' :: ':' :: (stringifyPrim v ++ rest))) =
    (parseJStr fuel (jstrEsc k.data ++ '"' :: ':' :: (stringifyPrim v ++ rest))).bind
      (fun kp =>
        match kp.2 with
        | [] => none
        | c2 :: r2 => if c2 = ':' then
            (parsePrim fuel r2).map (fun vp => ((⟨kp.1⟩, vp.1), vp.2))
          else none) from by simp [parsePair]]
  rw [parseJStr_jstrEsc k.data fuel _
    (by simp [encPair, quoteStr, List.length_append] at hf; omega)]
  show (if (':' : Char) = ':' then
      (parsePrim fuel (stringifyPrim v ++ rest)).map
        (fun vp => ((⟨k.data⟩, vp.1), vp.2))
    else none) = some ((k, v), rest)
  rw [if_pos rfl]
  rw [parsePrim_stringify v fuel rest
    (by simp [encPair, quoteStr, List.length_append] at hf; omega) hr]
  rfl

theorem pairsEnc_eq (p : String × Prim) (ps : List (String × Prim)) :
    pairsEnc (p :: ps) = encPair p ++ pairsTail ps := by
  cases ps with
  | nil => simp [pairsEnc, pairsTail]
  | cons q qs => rfl

theorem pairsEnc_cons_head (q : String × Prim) (qs : List (String × Prim)) :
    ∃ t, pairsEnc (q :: qs) = '"' :: t := by
  cases qs with
  | nil => exact ⟨_, rfl⟩
  | cons q2 qs2 => exact ⟨_, rfl⟩

theorem pairsTail_head (ps : List (String × Prim)) (r : List Char) :
    ∀ c, (pairsTail ps ++ Char.ofNat 125 :: r).head? = some c → c.isDigit = false := by
  cases ps with
  | nil =>
    intro c hc
    simp [pairsTail] at hc
    subst hc
    decide
  | cons p2 ps2 =>
    intro c hc
    simp [pairsTail] at hc
    subst hc
    decide

/-- The serialized member list followed by the closing brace determines the
member list. -/
theorem pairsEnc_inj : ∀ (l1 l2 : List (String × Prim)) (r1 r2 : List Char),
    pairsEnc l1 ++ Char.ofNat 125 :: r1 = pairsEnc l2 ++ Char.ofNat 125 :: r2 →
    l1 = l2 ∧ r1 = r2 := by
  intro l1
  induction l1 with
  | nil =>
    intro l2 r1 r2 heq
    cases l2 with
    | nil => exact ⟨rfl, by simpa using heq⟩
    | cons q qs =>
      obtain ⟨t, ht⟩ := pairsEnc_cons_head q qs
      rw [show pairsEnc ([] : List (String × Prim)) = [] from rfl, List.nil_append, ht,
        List.cons_append] at heq
      simp only [List.cons.injEq] at heq
      exact absurd heq.1 (by decide)
  | cons p ps ih =>
    intro l2 r1 r2 heq
    cases l2 with
    | nil =>
      obtain ⟨t, ht⟩ := pairsEnc_cons_head p ps
      rw [show pairsEnc ([] : List (String × Prim)) = [] from rfl, List.nil_append, ht,
        List.cons_append] at heq
      simp only [List.cons.injEq] at heq
      exact absurd heq.1 (by decide)
    | cons q qs =>
      rw [pairsEnc_eq p ps, pairsEnc_eq q qs, List.append_assoc, List.append_assoc] at heq
      have hlen : (encPair q).length ≤
          (encPair p ++ (pairsTail ps ++ Char.ofNat 125 :: r1)).length := by
        rw [heq]
        simp [List.length_append]
      set N := (encPair p ++ (pairsTail ps ++ Char.ofNat 125 :: r1)).length + 1 with hN
      have h1 := parsePair_encPair p N
        (pairsTail ps ++ Char.ofNat 125 :: r1)
        (by simp only [hN, List.length_append]; omega)
        (pairsTail_head ps r1)
      have h2 := parsePair_encPair q N
        (pairsTail qs ++ Char.ofNat 125 :: r2)
        (by simp only [List.length_append] at hlen; simp only [hN, List.length_append]; omega)
        (pairsTail_head qs r2)
      rw [heq, h2] at h1
      simp only [Option.some.injEq, Prod.mk.injEq] at h1
      obtain ⟨hqp, htail⟩ := h1
      subst hqp
      cases ps with
      | nil =>
        cases qs with
        | nil =>
          simp only [pairsTail, List.nil_append, List.cons.injEq] at htail
          exact ⟨rfl, htail.2.symm⟩
        | cons q2 qs2 =>
          rw [show pairsTail ([] : List (String × Prim)) = [] from rfl, List.nil_append,
            show pairsTail (q2 :: qs2) = ',' :: pairsEnc (q2 :: qs2) from rfl,
            List.cons_append] at htail
          simp only [List.cons.injEq] at htail
          exact absurd htail.1.symm (by decide)
      | cons p2 ps2 =>
        cases qs with
        | nil =>
          rw [show pairsTail ([] : List (String × Prim)) = [] from rfl, List.nil_append,
            show pairsTail (p2 :: ps2) = ',' :: pairsEnc (p2 :: ps2) from rfl,
            List.cons_append] at htail
          simp only [List.cons.injEq] at htail
          exact absurd htail.1 (by decide)
        | cons q2 qs2 =>
          rw [show pairsTail (p2 :: ps2) = ',' :: pairsEnc (p2 :: ps2) from rfl,
            show pairsTail (q2 :: qs2) = ',' :: pairsEnc (q2 :: qs2) from rfl,
            List.cons_append, List.cons_append] at htail
          simp only [List.cons.injEq, true_and] at htail
          have := ih (q2 :: qs2) r1 r2 htail.symm
          exact ⟨by rw [this.1], this.2⟩

/-- `JSON.stringify` on flat objects is injective in (ordered) member
lists. -/
theorem stringifyOpts_injective (l1 l2 : List (String × Prim))
    (h : stringifyOpts l1 = stringifyOpts l2) : l1 = l2 := by
  rw [stringifyOpts, stringifyOpts] at h
  simp only [List.cons.injEq, true_and] at h
  have h2 : pairsEnc l1 ++ Char.ofNat 125 :: ([] : List Char)
      = pairsEnc l2 ++ Char.ofNat 125 :: ([] : List Char) := by
    simpa using h
  exact (pairsEnc_inj l1 l2 [] [] h2).1

/-- Splitting a concatenation at a separator occurring in neither left
part. -/
theorem append_split_at_sep : ∀ (a1 a2 b1 b2 : List Char) (s : Char), s ∉ a1 → s ∉ a2 →
    a1 ++ s :: b1 = a2 ++ s :: b2 → a1 = a2 ∧ b1 = b2 := by
  intro a1
  induction a1 with
  | nil =>
    intro a2 b1 b2 s h1 h2 heq
    cases a2 with
    | nil => simpa using heq
    | cons x t =>
      rw [List.nil_append, List.cons_append] at heq
      simp only [List.cons.injEq] at heq
      obtain ⟨hsx, -⟩ := heq
      subst hsx
      exact absurd (List.mem_cons_self s t) h2
  | cons x t ih =>
    intro a2 b1 b2 s h1 h2 heq
    cases a2 with
    | nil =>
      rw [List.nil_append, List.cons_append] at heq
      simp only [List.cons.injEq] at heq
      obtain ⟨hxs, -⟩ := heq
      subst hxs
      exact absurd (List.mem_cons_self x t) h1
    | cons y u =>
      rw [List.cons_append, List.cons_append] at heq
      simp only [List.cons.injEq] at heq
      obtain ⟨hxy, hrest⟩ := heq
      have hih := ih u b1 b2 s (fun hm => h1 (List.mem_cons_of_mem _ hm))
        (fun hm => h2 (List.mem_cons_of_mem _ hm)) hrest
      exact ⟨by rw [hxy, hih.1], hih.2⟩

/-- The cache key determines the code bytes and the ordered option list. -/
theorem cacheKey_injective (c1 c2 : List Nat) (o1 o2 : List (String × Prim))
    (hb1 : ∀ x ∈ c1, x < 256) (hb2 : ∀ x ∈ c2, x < 256)
    (h : cacheKey c1 o1 = cacheKey c2 o2) : c1 = c2 ∧ o1 = o2 := by
  rw [cacheKey, cacheKey] at h
  have h2 : base64Encode c1 ++ ':' :: stringifyOpts o1
      = base64Encode c2 ++ ':' :: stringifyOpts o2 := List.append_cancel_left h
  have hsplit := append_split_at_sep (base64Encode c1) (base64Encode c2) _ _ ':'
    (base64Encode_no_colon c1) (base64Encode_no_colon c2) h2
  exact ⟨base64Encode_injective c1 c2 hb1 hb2 hsplit.1,
    stringifyOpts_injective o1 o2 hsplit.2⟩

theorem lookup_cons_pair (k pk : String) (pv : JVal) (rest : List (String × JVal)) :
    List.lookup k ((pk, pv) :: rest) = if k = pk then some pv else List.lookup k rest := by
  by_cases h : k = pk
  · have hb : (k == pk) = true := beq_iff_eq.mpr h
    simp [List.lookup, hb, h]
  · have hb : (k == pk) = false := beq_eq_false_iff_ne.mpr h
    simp [List.lookup, hb, h]

theorem jsSet_lookup_self (m : List (String × JVal)) (k : String) (v : JVal) :
    (jsSet m k v).lookup k = some v := by
  induction m with
  | nil => simp [jsSet, lookup_cons_pair]
  | cons p rest ih =>
    obtain ⟨pk, pv⟩ := p
    by_cases h : pk = k
    · subst h
      simp [jsSet, lookup_cons_pair]
    · simp only [jsSet, h, if_false]
      rw [lookup_cons_pair, if_neg (Ne.symm h)]
      exact ih

theorem jsSet_lookup_other (m : List (String × JVal)) (k k' : String) (v : JVal)
    (hne : k ≠ k') : (jsSet m k' v).lookup k = m.lookup k := by
  induction m with
  | nil =>
    rw [show jsSet ([] : List (String × JVal)) k' v = [(k', v)] from rfl,
      lookup_cons_pair, if_neg hne]
  | cons p rest ih =>
    obtain ⟨pk, pv⟩ := p
    by_cases h : pk = k'
    · subst h
      rw [show jsSet ((pk, pv) :: rest) pk v = (pk, v) :: rest from by simp [jsSet]]
      rw [lookup_cons_pair, lookup_cons_pair, if_neg hne, if_neg hne]
    · simp only [jsSet, h, if_false]
      rw [lookup_cons_pair, lookup_cons_pair]
      by_cases h2 : k = pk
      · rw [if_pos h2, if_pos h2]
      · rw [if_neg h2, if_neg h2]
        exact ih

/-- The success path of the handler, fully described. -/
theorem generateHandler_success (env : GenEnv) (req : GenRequest)
    (hv : validateGenerate req = [])
    (hmiss : getFromCache env.redisClient (cacheKeyStr req.code req.options) = none)
    (hb : env.isBrowserReady = true) (hbp : env.browserPresent = true)
    (hnp : env.page.newPageOk = true) (hsc : env.page.setContentOk = true)
    (hw : env.page.waitOk = true) (d : Dims)
    (he : env.page.evalResult = Except.ok (some d))
    (s : String) (hs : env.page.shotResult = Except.ok s)
    (hc : env.page.closeOk = true) :
    generateHandler env req =
      { status := 200,
        body := [("success", .jbool true),
          ("image", .jstr ("data:image/png;base64," ++ s)),
          ("dimensions", .jobj [("width", .jnum d.width), ("height", .jnum d.height)]),
          ("cached", .jbool false),
          ("timestamp", .jstr env.now)],
        verrors := [],
        trace := [.opened, .closed],
        cacheWrites := [(cacheKeyStr req.code req.options,
          [("success", .jbool true),
           ("image", .jstr ("data:image/png;base64," ++ s)),
           ("dimensions", .jobj [("width", .jnum d.width), ("height", .jnum d.height)]),
           ("cached", .jbool false),
           ("timestamp", .jstr env.now)])] } := by
  unfold generateHandler
  simp [hv, hmiss, hb, hbp, hnp, hsc, hw, he, hs, hc]

/-! ## Claim C1 -/

/-- **C1** (counterexample): the fingerprint is not order-independent.  The
logically identical option sets `{theme: "dark", fontSize: "14px"}` and
`{fontSize: "14px", theme: "dark"}` produce different cache keys for the
same code, because `JSON.stringify` serializes object keys in insertion
order; the claim asserts the keys would be equal. -/
theorem cacheKey_order_dependent :
    cacheKey [97] [("theme", Prim.pstr "dark"), ("fontSize", Prim.pstr "14px")] ≠
    cacheKey [97] [("fontSize", Prim.pstr "14px"), ("theme", Prim.pstr "dark")] := by
  decide

/-- **C1** (amended): the cache-key fingerprint (server.js line 540) is a
pure function of the code bytes and the ordered option list, and is
injective in them: two requests with the same code and the same options in
the same construction order always get the same key, and two requests
differing in the code or in any option value (or option order) get
different keys.  Key order is significant, so order-independence is dropped
from the original claim. -/
theorem cacheKey_functional_injective (c1 c2 : List Nat) (o1 o2 : List (String × Prim))
    (hb1 : ∀ x ∈ c1, x < 256) (hb2 : ∀ x ∈ c2, x < 256) :
    cacheKey c1 o1 = cacheKey c2 o2 ↔ (c1 = c2 ∧ o1 = o2) := by
  constructor
  · exact cacheKey_injective c1 c2 o1 o2 hb1 hb2
  · rintro ⟨rfl, rfl⟩
    rfl

/-- **C1** witness: the theorem applied to the byte strings of `hi` with a
`theme` option. -/
theorem cacheKey_functional_injective_witness :
    (∀ x ∈ ([104, 105] : List Nat), x < 256) ∧
    ((cacheKey [104, 105] [("theme", Prim.pstr "dark")]
        = cacheKey [104, 105] [("theme", Prim.pstr "light")]) ↔
      (([104, 105] : List Nat) = [104, 105] ∧
        ([("theme", Prim.pstr "dark")] : List (String × Prim))
          = [("theme", Prim.pstr "light")])) :=
  ⟨by decide, cacheKey_functional_injective _ _ _ _ (by decide) (by decide)⟩

/-! ## Claim C3 -/

/-- **C3**: every run of the `POST /api/generate` handler that successfully
opens a browser page also invokes `page.close()` before finishing — on the
success path and on every thrown-error path (content-load failure,
ready-wait timeout, measurement throwing or finding no element, screenshot
failure, and a throwing success-path close). -/
theorem generate_page_always_closed (env : GenEnv) (req : GenRequest)
    (h : PageEvent.opened ∈ (generateHandler env req).trace) :
    PageEvent.closed ∈ (generateHandler env req).trace := by
  revert h
  unfold generateHandler
  dsimp only
  repeat' split
  all_goals simp

/-- **C3** witness: the healthy environment opens and closes a page. -/
theorem generate_page_always_closed_witness :
    PageEvent.opened ∈ (generateHandler okEnv okReq).trace ∧
    PageEvent.closed ∈ (generateHandler okEnv okReq).trace :=
  ⟨by decide, generate_page_always_closed okEnv okReq (by decide)⟩

/-! ## Claim C5 -/

/-- **C5**: cache operations never propagate an error: without a configured
store `getFromCache` is always absent and `setToCache` reports a no-op
(`false`) without throwing; a throwing store read yields absent and a
throwing store write yields `false` (both swallowed by their `catch`); and
with no store configured a fully successful render still answers 200 with
`cached: false`. -/
theorem cache_errors_swallowed :
    (∀ key, getFromCache none key = none) ∧
    (∀ key, setToCache none key = false) ∧
    (∀ (st : CacheStore) (key : String), st.getOutcome key = .fail →
      getFromCache (some st) key = none) ∧
    (∀ (st : CacheStore) (key : String), st.setFails key = true →
      setToCache (some st) key = false) ∧
    (∀ (env : GenEnv) (req : GenRequest), env.redisClient = none →
      validateGenerate req = [] →
      env.isBrowserReady = true → env.browserPresent = true →
      env.page.newPageOk = true → env.page.setContentOk = true →
      env.page.waitOk = true →
      ∀ (d : Dims) (s : String), env.page.evalResult = Except.ok (some d) →
      env.page.shotResult = Except.ok s → env.page.closeOk = true →
      (generateHandler env req).status = 200 ∧
      (generateHandler env req).body.lookup "cached" = some (.jbool false)) := by
  refine ⟨fun _ => rfl, fun _ => rfl, ?_, ?_, ?_⟩
  · intro st key h
    simp [getFromCache, h]
  · intro st key h
    simp [setToCache, h]
  · intro env req h0 hv hb hbp hnp hsc hw d s he hs hc
    rw [generateHandler_success env req hv (by rw [h0]; rfl) hb hbp hnp hsc hw d he s hs hc]
    exact ⟨rfl, rfl⟩

/-- **C5** witness: a throwing store read/write is absorbed, and the
cache-less healthy environment renders with `cached: false`. -/
theorem cache_errors_swallowed_witness :
    failStore.getOutcome "k" = .fail ∧
    getFromCache (some failStore) "k" = none ∧
    failStore.setFails "k" = true ∧
    setToCache (some failStore) "k" = false ∧
    (generateHandler okEnv okReq).status = 200 ∧
    (generateHandler okEnv okReq).body.lookup "cached" = some (.jbool false) :=
  ⟨rfl, cache_errors_swallowed.2.2.1 failStore "k" rfl,
   rfl, cache_errors_swallowed.2.2.2.1 failStore "k" rfl,
   (cache_errors_swallowed.2.2.2.2 okEnv okReq rfl rfl rfl rfl rfl rfl rfl
     ⟨0, 0, 800, 600⟩ "QUJD" rfl rfl rfl).1,
   (cache_errors_swallowed.2.2.2.2 okEnv okReq rfl rfl rfl rfl rfl rfl rfl
     ⟨0, 0, 800, 600⟩ "QUJD" rfl rfl rfl).2⟩

/-! ## Claim C6 -/

/-- **C6**: when the rendering engine never became ready, a valid request
that is not served from the cache gets HTTP 503 with `success: false` and
`fallback: true`; and `POST /api/generate/fallback` with the same code gets
HTTP 200 whose `codePreview` is the first 200 characters of the code with
`...` appended exactly when the code is longer than 200 characters. -/
theorem renderer_unavailable_503_and_fallback (env : GenEnv) (req : GenRequest)
    (hv : validateGenerate req = [])
    (hmiss : getFromCache env.redisClient (cacheKeyStr req.code req.options) = none)
    (hb : env.isBrowserReady = false) :
    (generateHandler env req).status = 503 ∧
    (generateHandler env req).body.lookup "success" = some (.jbool false) ∧
    (generateHandler env req).body.lookup "fallback" = some (.jbool true) ∧
    (fallbackHandler env.now req.code).1 = 200 ∧
    (fallbackHandler env.now req.code).2.lookup "codePreview"
      = some (.jstr (req.code.take 200 ++ (if 200 < req.code.length then "..." else ""))) := by
  have hcode : req.code ≠ "" := by
    intro h
    simp [validateGenerate, h] at hv
  have h503 : generateHandler env req =
      { status := 503,
        body := [("success", .jbool false),
          ("error", .jstr "Image generation service is temporarily unavailable"),
          ("fallback", .jbool true)],
        verrors := [], trace := [], cacheWrites := [] } := by
    unfold generateHandler
    simp [hv, hmiss, hb]
  have hfb : fallbackHandler env.now req.code =
      (200, [("success", .jbool true),
        ("message", .jstr "Fallback mode active. Install Puppeteer for image generation."),
        ("codePreview",
          .jstr (req.code.take 200 ++ (if 200 < req.code.length then "..." else ""))),
        ("length", .jnum req.code.length),
        ("timestamp", .jstr env.now)]) := by
    simp [fallbackHandler, hcode]
  rw [h503, hfb]
  exact ⟨rfl, rfl, rfl, rfl, rfl⟩

/-- **C6** witness: the never-ready environment on the minimal valid
request. -/
theorem renderer_unavailable_503_and_fallback_witness :
    validateGenerate okReq = [] ∧
    (generateHandler downEnv okReq).status = 503 ∧
    (fallbackHandler downEnv.now okReq.code).1 = 200 :=
  ⟨rfl, (renderer_unavailable_503_and_fallback downEnv okReq rfl rfl rfl).1,
   (renderer_unavailable_503_and_fallback downEnv okReq rfl rfl rfl).2.2.2.1⟩

/-! ## Claim C10 -/

/-- **C10**: a `POST /api/generate` response served from the cache carries
`cached: true` and a response-time timestamp regardless of the `cached:
false` value and stale timestamp stored in the entry; the read performs no
page work and no cache write (the stored entry is not modified). -/
theorem cached_response_remarked (env : GenEnv) (req : GenRequest)
    (cached : List (String × JVal))
    (hv : validateGenerate req = [])
    (hhit : getFromCache env.redisClient (cacheKeyStr req.code req.options) = some cached) :
    (generateHandler env req).status = 200 ∧
    (generateHandler env req).body.lookup "cached" = some (.jbool true) ∧
    (generateHandler env req).body.lookup "timestamp" = some (.jstr env.now) ∧
    (generateHandler env req).trace = [] ∧
    (generateHandler env req).cacheWrites = [] := by
  have hform : generateHandler env req =
      { status := 200,
        body := jsSet (jsSet cached "cached" (.jbool true)) "timestamp" (.jstr env.now),
        verrors := [], trace := [], cacheWrites := [] } := by
    unfold generateHandler
    simp [hv, hhit]
  rw [hform]
  refine ⟨rfl, ?_, ?_, rfl, rfl⟩
  · rw [jsSet_lookup_other _ _ _ _ (by decide), jsSet_lookup_self]
  · rw [jsSet_lookup_self]

/-- **C10** witness: a hit on an entry stored with `cached: false` and a
1999 timestamp is answered re-marked. -/
theorem cached_response_remarked_witness :
    getFromCache hitEnv.redisClient (cacheKeyStr okReq.code okReq.options) = some oldEntry ∧
    (generateHandler hitEnv okReq).body.lookup "cached" = some (.jbool true) ∧
    (generateHandler hitEnv okReq).body.lookup "timestamp"
      = some (.jstr "2024-01-01T00:00:00.000Z") ∧
    (generateHandler hitEnv okReq).cacheWrites = [] :=
  ⟨rfl, (cached_response_remarked hitEnv okReq oldEntry rfl rfl).2.1,
   (cached_response_remarked hitEnv okReq oldEntry rfl rfl).2.2.1,
   (cached_response_remarked hitEnv okReq oldEntry rfl rfl).2.2.2.2⟩

/-! ## Claim C2 -/

theorem countSub_nil_singleton (c : Char) : countSub [] [c] = 0 := rfl

theorem data_append (a b : String) : (a ++ b).data = a.data ++ b.data := rfl

theorem generateHTMLTemplate_data (code : Option String) (opts : RenderOptions) :
    (generateHTMLTemplate code opts).data
      = ((templateHead opts).data ++ (escapeHTML code).data) ++ (templateTail opts).data := by
  show ((templateHead opts ++ escapeHTML code) ++ templateTail opts).data = _
  rw [data_append, data_append]

theorem countSub_cons_singleton (c a : Char) (r : List Char) :
    countSub (a :: r) [c] = (if c = a then 1 else 0) + countSub r [c] := by
  rw [countSub]
  by_cases h : c = a
  · subst h
    simp [List.isPrefixOf]
  · have hb : (c == a) = false := beq_eq_false_iff_ne.mpr h
    simp [List.isPrefixOf, hb, h]

/-- A one-character needle cannot straddle an append boundary, so its count
is additive. -/
theorem countSub_append_singleton (c : Char) :
    ∀ x y : List Char, countSub (x ++ y) [c] = countSub x [c] + countSub y [c] := by
  intro x
  induction x with
  | nil =>
    intro y
    simp [countSub_nil_singleton]
  | cons a r ih =>
    intro y
    rw [List.cons_append, countSub_cons_singleton, countSub_cons_singleton, ih]
    omega

theorem countSub_ge_one_of_mem (c : Char) (l : List Char) (h : c ∈ l) :
    1 ≤ countSub l [c] := by
  induction l with
  | nil => simp at h
  | cons a r ih =>
    rw [countSub_cons_singleton]
    rcases List.mem_cons.mp h with h1 | h1
    · subst h1
      simp
    · have := ih h1
      omega

set_option maxRecDepth 8192 in
/-- **C2** (counterexample): two parts of the claim fail on the code.  For
`code = "a"` the build output does not contain *exactly one* occurrence of
the escaped code text `a` — the fixed template text contains many further
`a` characters.  And the escape of a tab is four `&nbsp;` entities, the
same as the escape of four spaces, so extracting the text content cannot
return the original: un-escaping yields four spaces. -/
theorem build_occurrence_roundtrip_violated :
    countSub (generateHTMLTemplate (some "a") {}).data (escapeHTML (some "a")).data ≠ 1 ∧
    unescapeHTML (escapeHTML (some "\t")) ≠ "\t" := by
  constructor
  · have hesc : (escapeHTML (some "a")).data = ['a'] := by decide
    rw [hesc, generateHTMLTemplate_data, hesc, countSub_append_singleton,
      countSub_append_singleton]
    have h1 : 1 ≤ countSub (templateHead ({} : RenderOptions)).data ['a'] :=
      countSub_ge_one_of_mem 'a' _ (by decide)
    have h2 : countSub ['a'] ['a'] = 1 := by decide
    omega
  · decide

/-- **C2** (amended): for every code string and options, the build output is
the fixed head, the escaped code and the fixed tail, with the head ending in
`<pre><code>` and the tail beginning with `</code></pre>`; the escaped code
text occurs in the output (at least once — the surrounding template text can
repeat short fragments, so *exactly once* does not hold); no raw `<`, `>` or
`&` of the original code survives outside a produced entity or `<br>`; and
un-escaping the escaped code yields the original code provided the code has
no tab character (a tab escapes to four `&nbsp;`, indistinguishable from
four spaces). -/
theorem build_embeds_escaped_code (code : String) (opts : RenderOptions)
    (ht : '\t' ∉ code.data) :
    generateHTMLTemplate (some code) opts
      = templateHead opts ++ escapeHTML (some code) ++ templateTail opts ∧
    templateHead opts = templateHeadBody opts ++ "<pre><code>" ∧
    templateTail opts = "</code></pre>" ++ templateTailBody opts ∧
    (escapeHTML (some code)).data <:+: (generateHTMLTemplate (some code) opts).data ∧
    noRawSpecials (escapeHTML (some code)).data = true ∧
    unescapeHTML (escapeHTML (some code)) = code := by
  refine ⟨rfl, rfl, rfl, ?_, ?_, ?_⟩
  · exact ⟨(templateHead opts).data, (templateTail opts).data,
      (generateHTMLTemplate_data (some code) opts).symm⟩
  · by_cases hc : code = ""
    · subst hc
      decide
    · rw [show escapeHTML (some code) = ⟨escHTMLChars code.data⟩ from by
        simp [escapeHTML, hc]]
      exact noRaw_escHTMLChars code.data
  · by_cases hc : code = ""
    · subst hc
      decide
    · rw [show escapeHTML (some code) = ⟨escHTMLChars code.data⟩ from by
        simp [escapeHTML, hc]]
      show (⟨unescChars (escHTMLChars code.data)⟩ : String) = code
      rw [unesc_escHTMLChars code.data ht]

/-- **C2** witness: the theorem at `code = "ab"` with default options. -/
theorem build_embeds_escaped_code_witness :
    '\t' ∉ "ab".data ∧
    unescapeHTML (escapeHTML (some "ab")) = "ab" :=
  ⟨by decide, (build_embeds_escaped_code "ab" {} (by decide)).2.2.2.2.2⟩

/-! ## Claim C4 -/

/-- **C4** (counterexample): an unknown `options.theme` does NOT always
fall back to the dark palette.  `themes["toString"]` resolves through the
prototype chain to the truthy inherited `Object.prototype.toString`, so the
`|| themes.dark` of server.js line 213 is not taken: every palette field
read from the inherited member is `undefined`, not a dark-palette color. -/
theorem unknown_theme_prototype_member :
    "toString" ∉ (["dark", "light", "solarized"] : List String) ∧
    themesLookup "toString" = some .inherited ∧
    themeColorsOf "toString" = undefinedPalette ∧
    themeColorsOf "toString" ≠ darkTheme := by
  refine ⟨by decide, rfl, rfl, by decide⟩

set_option maxRecDepth 16384 in
/-- **C4** (amended): the template builder is total on well-formed inputs —
the build is the fixed head/escaped-code/tail concatenation, always a
string, never a failure.  An `options.theme` outside the three documented
themes that is also not a property name inherited from `Object.prototype`
resolves to `undefined`, so `themes[theme] || themes.dark` (server.js line
213) falls back to the dark palette, and the build output does not
otherwise depend on which such unknown value the theme has; a theme naming
an inherited `Object.prototype` member instead keeps the truthy inherited
member, whose every palette field reads back `undefined` — still without
failing. -/
theorem unknown_theme_palette_resolution (code : Option String)
    (opts : RenderOptions) (t t' : String)
    (ht : t ∉ (["dark", "light", "solarized"] : List String))
    (ht' : t' ∉ (["dark", "light", "solarized"] : List String))
    (hp : t ∉ protoProps) (hp' : t' ∉ protoProps) :
    themeColorsOf t = darkTheme ∧
    (∀ s ∈ protoProps, themeColorsOf s = undefinedPalette) ∧
    generateHTMLTemplate code { opts with theme := some t }
      = templateHead { opts with theme := some t } ++ escapeHTML code
        ++ templateTail { opts with theme := some t } ∧
    generateHTMLTemplate code { opts with theme := some t }
      = generateHTMLTemplate code { opts with theme := some t' } := by
  simp only [List.mem_cons, List.not_mem_nil, or_false, not_or] at ht ht'
  obtain ⟨h1, h2, h3⟩ := ht
  obtain ⟨h1', h2', h3'⟩ := ht'
  have hl : themesLookup t = none := by
    simp [themesLookup, h1, h2, h3, hp]
  have hl' : themesLookup t' = none := by
    simp [themesLookup, h1', h2', h3', hp']
  refine ⟨by rw [themeColorsOf, hl], by decide, rfl, ?_⟩
  unfold generateHTMLTemplate templateHead templateTail templateHeadBody templateTailBody
  simp [themeColorsOf, hl, hl', h1, h1']

/-- **C4** witness: the unknown themes `neon` and `blue`, neither a
documented theme nor an inherited `Object.prototype` property name. -/
theorem unknown_theme_palette_resolution_witness :
    ("neon" ∉ (["dark", "light", "solarized"] : List String) ∧
     "neon" ∉ protoProps) ∧
    themeColorsOf "neon" = darkTheme ∧
    generateHTMLTemplate (some "x") { theme := some "neon" }
      = generateHTMLTemplate (some "x") { theme := some "blue" } :=
  ⟨by decide, (unknown_theme_palette_resolution (some "x") {} "neon" "blue"
      (by decide) (by decide) (by decide) (by decide)).1,
   (unknown_theme_palette_resolution (some "x") {} "neon" "blue"
      (by decide) (by decide) (by decide) (by decide)).2.2.2⟩

/-! ## Claim C7 -/

/-- **C7** (counterexample): a fully successful render answers 200 with
`success: true`, but the response body has *no* top-level `width` or
`height` field — the measured dimensions are nested in a `dimensions`
object (server.js lines 617-620), while the claim asserts top-level `width`
and `height`. -/
theorem success_response_width_not_top_level :
    (generateHandler okEnv okReq).status = 200 ∧
    (generateHandler okEnv okReq).body.lookup "success" = some (.jbool true) ∧
    (generateHandler okEnv okReq).body.lookup "width" = none ∧
    (generateHandler okEnv okReq).body.lookup "height" = none :=
  ⟨rfl, rfl, rfl, rfl⟩

/-- **C7** (amended): on every successful render the response body has
`success: true`, `image` a PNG data URI, a `dimensions` object carrying the
captured card's integer `width` and `height`, `cached: false`, and a
`timestamp` — the dimensions sit inside the nested `dimensions` field
rather than at top level. -/
theorem generate_success_response_shape (env : GenEnv) (req : GenRequest)
    (hv : validateGenerate req = [])
    (hmiss : getFromCache env.redisClient (cacheKeyStr req.code req.options) = none)
    (hb : env.isBrowserReady = true) (hbp : env.browserPresent = true)
    (hnp : env.page.newPageOk = true) (hsc : env.page.setContentOk = true)
    (hw : env.page.waitOk = true) (d : Dims)
    (he : env.page.evalResult = Except.ok (some d))
    (s : String) (hs : env.page.shotResult = Except.ok s)
    (hc : env.page.closeOk = true) :
    (generateHandler env req).status = 200 ∧
    (generateHandler env req).body.lookup "success" = some (.jbool true) ∧
    (generateHandler env req).body.lookup "image"
      = some (.jstr ("data:image/png;base64," ++ s)) ∧
    (generateHandler env req).body.lookup "dimensions"
      = some (.jobj [("width", .jnum d.width), ("height", .jnum d.height)]) ∧
    (generateHandler env req).body.lookup "cached" = some (.jbool false) ∧
    (generateHandler env req).body.lookup "timestamp" = some (.jstr env.now) := by
  rw [generateHandler_success env req hv hmiss hb hbp hnp hsc hw d he s hs hc]
  exact ⟨rfl, rfl, rfl, rfl, rfl, rfl⟩

/-- **C7** witness: the healthy environment, whose measurement is 800×600
and screenshot `QUJD`. -/
theorem generate_success_response_shape_witness :
    validateGenerate okReq = [] ∧
    (generateHandler okEnv okReq).body.lookup "dimensions"
      = some (.jobj [("width", .jnum 800), ("height", .jnum 600)]) ∧
    (generateHandler okEnv okReq).body.lookup "image"
      = some (.jstr "data:image/png;base64,QUJD") :=
  ⟨rfl,
   (generate_success_response_shape okEnv okReq rfl rfl rfl rfl rfl rfl rfl
     ⟨0, 0, 800, 600⟩ rfl "QUJD" rfl rfl).2.2.2.1,
   (generate_success_response_shape okEnv okReq rfl rfl rfl rfl rfl rfl rfl
     ⟨0, 0, 800, 600⟩ rfl "QUJD" rfl rfl).2.2.1⟩

/-! ## Claim C8 -/

/-- Under a non-empty, within-limit code, no validator reports against the
`code` field. -/
theorem validate_no_code_error (req : GenRequest) (h0 : req.code ≠ "")
    (h1 : ¬req.code.length > 10000) :
    ∀ e ∈ validateGenerate req, e.path ≠ "code" := by
  intro e he
  simp only [validateGenerate, h0, if_false, h1, if_neg, List.nil_append,
    List.mem_append] at he
  rcases he with (he | he) | he
  · revert he
    split
    · simp
    · split <;> simp_all
  · revert he
    split
    · simp
    · split <;> simp_all
  · revert he
    split
    · simp
    · split <;> simp_all

/-- **C8**: a code of exactly 10000 characters is not rejected for length
(neither the length validator nor the presence validator fires against
`code`), while a code of 10001 characters makes the handler answer HTTP 400
with a non-empty field-level error list containing the length error, before
any page work or cache write happens. -/
theorem code_length_boundary :
    (∀ req : GenRequest, req.code.length = 10000 →
      (⟨"code", "Code too long (max 10000 chars)"⟩ : ValError) ∉ validateGenerate req ∧
      (⟨"code", "Code is required"⟩ : ValError) ∉ validateGenerate req) ∧
    (∀ (env : GenEnv) (req : GenRequest), req.code.length = 10001 →
      (generateHandler env req).status = 400 ∧
      (generateHandler env req).verrors ≠ [] ∧
      (⟨"code", "Code too long (max 10000 chars)"⟩ : ValError)
        ∈ (generateHandler env req).verrors ∧
      (generateHandler env req).trace = [] ∧
      (generateHandler env req).cacheWrites = []) := by
  constructor
  · intro req h
    have h0 : req.code ≠ "" := by
      intro he
      rw [he] at h
      simp at h
    have h1 : ¬req.code.length > 10000 := by omega
    exact ⟨fun hm => validate_no_code_error req h0 h1 _ hm rfl,
      fun hm => validate_no_code_error req h0 h1 _ hm rfl⟩
  · intro env req h
    have hgt : req.code.length > 10000 := by omega
    have h0 : req.code ≠ "" := by
      intro he
      rw [he] at h
      simp at h
    have hmem : (⟨"code", "Code too long (max 10000 chars)"⟩ : ValError)
        ∈ validateGenerate req := by
      simp [validateGenerate, hgt, List.mem_append]
    have hne : validateGenerate req ≠ [] := by
      intro hnil
      rw [hnil] at hmem
      simp at hmem
    have h400 : generateHandler env req =
        { status := 400, body := [("success", .jbool false)],
          verrors := validateGenerate req, trace := [], cacheWrites := [] } := by
      unfold generateHandler
      simp [hne]
    rw [h400]
    exact ⟨rfl, hne, hmem, rfl, rfl⟩

/-- **C8** witness: 10000 `a` characters pass, 10001 are rejected. -/
theorem code_length_boundary_witness :
    (⟨List.replicate 10000 'a'⟩ : String).length = 10000 ∧
    (⟨"code", "Code too long (max 10000 chars)"⟩ : ValError)
      ∉ validateGenerate { code := ⟨List.replicate 10000 'a'⟩, options := [] } ∧
    (⟨List.replicate 10001 'a'⟩ : String).length = 10001 ∧
    (generateHandler okEnv { code := ⟨List.replicate 10001 'a'⟩, options := [] }).status
      = 400 :=
  ⟨by show (List.replicate 10000 'a').length = 10000; exact List.length_replicate _ _,
   (code_length_boundary.1 _ (by show (List.replicate 10000 'a').length = 10000; exact List.length_replicate _ _)).1,
   by show (List.replicate 10001 'a').length = 10001; exact List.length_replicate _ _,
   (code_length_boundary.2 okEnv _
     (by show (List.replicate 10001 'a').length = 10001; exact List.length_replicate _ _)).1⟩

/-! ## Claim C9 -/

/-- **C9**: `escapeHTML` answers the empty string for every falsy input —
`null`/`undefined` (modeled as `none`) and the empty string — instead of
throwing, so the template builder embeds an empty code block
`<pre><code></code></pre>` when the code argument is empty or absent. -/
theorem escapeHTML_falsy_empty :
    escapeHTML none = "" ∧
    escapeHTML (some "") = "" ∧
    ∀ opts : RenderOptions,
      generateHTMLTemplate none opts
        = templateHead opts ++ escapeHTML none ++ templateTail opts ∧
      "<pre><code></code></pre>".data <:+: (generateHTMLTemplate none opts).data := by
  refine ⟨rfl, rfl, fun opts => ⟨rfl, ?_⟩⟩
  refine ⟨(templateHeadBody opts).data, (templateTailBody opts).data, ?_⟩
  rw [generateHTMLTemplate_data]
  rw [show (templateHead opts).data
      = (templateHeadBody opts).data ++ "<pre><code>".data from data_append _ _]
  rw [show (templateTail opts).data
      = "</code></pre>".data ++ (templateTailBody opts).data from data_append _ _]
  rw [show (escapeHTML none).data = [] from rfl]
  simp only [List.append_nil, List.append_assoc, List.nil_append]
  congr 1
